import Mathlib

/-!
Verification of the MBTI trait-scoring engine in
`src/app/mbti_test/domain/analyzer.py`.

The Python module is shallowly embedded below.  Conventions:

* Python `str` values are Lean `String`s; the keyword tables, regex literal
  alternations and style marker lists are copied verbatim (code point for
  code point) from the staged source file.
* The mutable `scores` dict keyed by the eight trait letters is the
  `Scores` structure; `Scores.add`/`Scores.get` mirror `scores[t] += w`
  and `scores.get(t, 0)`.
* Python substring containment `w in ans` is `substrIn`, `ans.count(sub)`
  is `countOccs` (left-to-right, non-overlapping), and `re.search` on the
  alternation-of-literals patterns used by the module is `reSearch`
  (true iff some alternative occurs as a substring).
* `float` confidence arithmetic is modelled over `ℚ`; Python's
  `round(x, 1)` is `round1` (floor of x*10 + 1/2, divided by 10).  Python
  rounds floats half-to-even, but no value produced by `get_conf` is an
  exact half (the scaled numerator is even while the denominator term
  `10*(a+b)+1` is odd), so nearest-integer rounding agrees on all inputs
  that occur.
* The module defines `get_dimension_for_question` and
  `analyze_single_answer` twice; at import time the later definition
  shadows the earlier one, so the second definitions keep the source
  names and the shadowed first definitions are suffixed `_v1`.
* A batch entry that is not a `str` (e.g. `None`) is `Ans.nonstr`;
  `calculate_partial_mbti` guards every use with `isinstance(ans, str)`,
  while `run_analysis` evaluates `k["word"] in ans` on it, which raises
  `TypeError` — modelled by `Option`, with `none` for the raise.
-/

structure Scores where
  E : Nat
  I : Nat
  S : Nat
  N : Nat
  T : Nat
  F : Nat
  J : Nat
  P : Nat
deriving Repr, DecidableEq

def Scores.zero : Scores := ⟨0, 0, 0, 0, 0, 0, 0, 0⟩

def Scores.add (sc : Scores) (t : String) (w : Nat) : Scores :=
  if t = "E" then { sc with E := sc.E + w }
  else if t = "I" then { sc with I := sc.I + w }
  else if t = "S" then { sc with S := sc.S + w }
  else if t = "N" then { sc with N := sc.N + w }
  else if t = "T" then { sc with T := sc.T + w }
  else if t = "F" then { sc with F := sc.F + w }
  else if t = "J" then { sc with J := sc.J + w }
  else if t = "P" then { sc with P := sc.P + w }
  else sc

def Scores.get (sc : Scores) (t : String) : Nat :=
  if t = "E" then sc.E
  else if t = "I" then sc.I
  else if t = "S" then sc.S
  else if t = "N" then sc.N
  else if t = "T" then sc.T
  else if t = "F" then sc.F
  else if t = "J" then sc.J
  else if t = "P" then sc.P
  else 0

/-- Python substring containment on code-point lists: `needle.isPrefixOf`
at each position. `"" in s` is true, as in Python. -/
def substrInAux (needle : List Char) : List Char → Bool
  | [] => needle.isEmpty
  | c :: rest => needle.isPrefixOf (c :: rest) || substrInAux needle rest

/-- Python `needle in hay` (substring containment). -/
def substrIn (needle hay : String) : Bool := substrInAux needle.data hay.data

/-- Python `hay.count(needle)`: left-to-right, non-overlapping.  The
`fuel` argument (instantiated with the haystack length, which bounds the
recursion depth) only makes the recursion structural, so that the
function evaluates inside the kernel. -/
def countOccsAux (needle : List Char) : Nat → List Char → Nat
  | _, [] => if needle.isEmpty then 1 else 0
  | 0, _ :: _ => 0
  | fuel + 1, c :: rest =>
    if needle.isEmpty then 1 + countOccsAux needle fuel rest
    else if needle.isPrefixOf (c :: rest) then
      1 + countOccsAux needle fuel ((c :: rest).drop needle.length)
    else countOccsAux needle fuel rest

def countOccs (needle hay : String) : Nat :=
  countOccsAux needle.data hay.data.length hay.data

/-! ### The weighted keyword lexicon (`DICTIONARY`), copied from the source. -/

def dictEI_E : List (String × Nat) := [
  ("ê°™ì´", 5), ("ì‚¬ëŒ", 3), ("ëª¨ì„", 5), ("ë– ë“¤", 3),
  ("ë§Œë‚˜", 4), ("ì¹œêµ¬ë“¤", 5), ("ë‹¤ê°™ì´", 5), ("ì—¬ëŸ¿ì´", 5),
  ("íŒŒí‹°", 4), ("ìˆ ìë¦¬", 4), ("íšŒì‹", 4), ("ë²ˆê°œ", 5),
  ("ë‚˜ê°€", 3), ("ë°–ì—", 3), ("ì™¸ì¶œ", 3), ("ì•½ì†", 4),
  ("ë§Œë‚¨", 4), ("ëŒ€í™”", 3), ("ìˆ˜ë‹¤", 5), ("í†¡", 3),
  ("ì „í™”", 3), ("ì—°ë½", 3), ("ë†€", 4), ("í•¨ê»˜", 4),
  ("ìš°ë¦¬", 3), ("ë‹¤ë“¤", 3), ("í™œë°œ", 4), ("ì‹œëŒ", 4),
  ("ì™ìì§€ê»„", 5), ("ë– ë“¤ì©", 5)]

def dictEI_I : List (String × Nat) := [
  ("í˜¼ì", 5), ("ì¡°ìš©", 4), ("ì§‘ì—", 5), ("ìƒê°", 3),
  ("ê¸°ë¹¨ë ¤", 5), ("ì´ì–´í°", 4), ("ì§‘ì½•", 5), ("ë°©ì½•", 5),
  ("ì‰¬ê³ ", 3), ("ì¶©ì „", 4), ("íœ´ì‹", 3), ("í”¼ê³¤", 4),
  ("ê·€ì°®", 4), ("ë‚˜ë§Œ", 4), ("í˜¼ìë§Œ", 5), ("ê³ ìš”", 4),
  ("ì¡°ìš©íˆ", 4), ("ì°¨ë¶„", 4), ("ì€ë‘”", 5), ("ë°©êµ¬ì„", 5),
  ("ì¹¨ëŒ€", 3), ("ì§‘ìˆœì´", 5), ("ì§‘ëŒì´", 5), ("ì¸ì‹¸ ì•„ë‹Œ", 5),
  ("ì¡°ìš©í•œ", 4), ("ê¹Šì´", 3), ("ë‚´ë©´", 4), ("ì‚¬ìƒ‰", 4),
  ("ëª…ìƒ", 4), ("ë…ì„œ", 3)]

def dictSN_S : List (String × Nat) := [
  ("ì‚¬ì‹¤", 5), ("í˜„ì‹¤", 4), ("ê²½í—˜", 4), ("ì§ì ‘", 3),
  ("êµ¬ì²´ì ", 5), ("íŒ©íŠ¸", 3), ("ì‹¤ì œë¡œ", 4), ("ë³¸", 3),
  ("ë“¤ì€", 3), ("í•´ë´¤", 4), ("ê²ªì€", 4), ("ë‹¹ì¥", 4),
  ("ì§€ê¸ˆ", 3), ("í˜„ì¬", 3), ("ì‹¤ì§ˆì ", 5), ("ì‹¤ìš©ì ", 5),
  ("íš¨ìœ¨ì ", 4), ("êµ¬ì²´ì ìœ¼ë¡œ", 5), ("ì •í™•íˆ", 4), ("í™•ì‹¤íˆ", 4),
  ("ë¶„ëª…íˆ", 4), ("ì¦ê±°", 4), ("ë°ì´í„°", 4), ("í†µê³„", 4),
  ("ì‹¤ì „", 4), ("ì‹¤ìƒí™œ", 4), ("ì‹¤ë¬´", 4), ("í˜„ì¥", 4),
  ("ì‹¤ì²´", 4), ("ëª…í™•", 4), ("ì„¸ë¶€", 4), ("ë””í…Œì¼", 4),
  ("ëˆˆì— ë³´ì´ëŠ”", 5), ("ë§Œì ¸ë³¸", 4), ("ê²½í—˜ìƒ", 5), ("ê³¼ê±°ì—", 3)]

def dictSN_N : List (String × Nat) := [
  ("ì˜ë¯¸", 5), ("ìƒìƒ", 5), ("ë¯¸ë˜", 4), ("ê°€ëŠ¥ì„±", 5),
  ("ë§Œì•½ì—", 5), ("ë¹„ìœ ", 3), ("ì¶”ìƒ", 4), ("ì´ë¡ ", 4),
  ("ê°œë…", 4), ("ì•„ì´ë””ì–´", 5), ("ì˜ê°", 5), ("ì§ê´€", 4),
  ("ëŠë‚Œ", 3), ("ë­”ê°€", 3), ("ì–´ì©Œë©´", 4), ("ë‚˜ì¤‘ì—", 3),
  ("ì–¸ì  ê°€", 4), ("ê²°êµ­", 3), ("ë³¸ì§ˆ", 5), ("ì‹¬ì¸µ", 4),
  ("ê·¼ë³¸", 4), ("ì² í•™", 5), ("ê¹Šì€", 4), ("ìˆ¨ì€", 4),
  ("íŒ¨í„´", 4), ("ì—°ê²°", 4), ("ê´€ê³„", 3), ("ìƒì§•", 4),
  ("ì€ìœ ", 4), ("ì°½ì˜", 5), ("í˜ì‹ ", 5), ("ë¹„ì „", 5),
  ("ê¿ˆ", 4), ("ì´ìƒ", 4), ("í†µì°°", 5), ("í•´ì„", 4),
  ("ì•”ì‹œ", 4), ("í•¨ì˜", 5), ("ìƒˆë¡œìš´", 4)]

def dictTF_T : List (String × Nat) := [
  ("ì´ìœ ", 5), ("ì›ì¸", 5), ("ë…¼ë¦¬", 5), ("ë¶„ì„", 4),
  ("ì™œ", 5), ("í•´ê²°", 4), ("ë³´í—˜", 5), ("í•©ë¦¬", 5),
  ("íš¨ìœ¨", 4), ("ê°ê´€", 5), ("íŒë‹¨", 4), ("í‰ê°€", 4),
  ("ê¸°ì¤€", 4), ("ì •í™•", 4), ("ì‚¬ì‹¤", 3), ("ì¦ëª…", 4),
  ("ê·¼ê±°", 5), ("íƒ€ë‹¹", 5), ("ë…¼ì¦", 5), ("ê²°ë¡ ", 4),
  ("ì¶”ë¡ ", 4), ("ì¸ê³¼", 5), ("ì²´ê³„", 4), ("êµ¬ì¡°", 4),
  ("ì‹œìŠ¤í…œ", 4), ("ë°©ë²•", 3), ("ì „ëµ", 4), ("ê³„íšì ", 4),
  ("ëƒ‰ì •", 5), ("ëƒ‰ì² ", 5), ("ì´ì„±", 5), ("ì‹¤ë¦¬", 4),
  ("ë“ì‹¤", 5), ("ì†ìµ", 5), ("ë”°ì ¸", 5), ("ê³„ì‚°", 4),
  ("ì–´ë–»ê²Œ", 4), ("ë°©ì‹", 3), ("ìˆ˜ë‹¨", 4), ("ì ˆì°¨", 4),
  ("ê·œì¹™", 4), ("ì›ë¦¬", 4), ("ë²•ì¹™", 4), ("ì†”ì§íˆ", 3),
  ("ì–´ì´ì—†", 4), ("í™©ë‹¹", 4), ("ë­”ë§", 3), ("ë‹¹ì—°", 4),
  ("ì•„ë‹ˆì§€", 3), ("íŒ©í­", 5), ("ì§ì„¤", 5), ("í½ì´ë‚˜", 4),
  ("ì›ƒê¸°", 3), ("ë§ë„ì•ˆ", 4), ("ëŒ€ì‹ ", 3), ("í•´ì£¼", 3),
  ("ê°œì„ ", 5), ("ìˆ˜ì •", 4), ("ìœ¡í•˜ì›ì¹™", 5), ("ë”°ë¼", 3),
  ("ë¹„íš¨ìœ¨", 5), ("ìµœì ", 5), ("ë‹¤ë¥´ì§€ì•Š", 4), ("ì—ë”°ë¼", 3)]

def dictTF_F : List (String × Nat) := [
  ("ê¸°ë¶„", 5), ("ë§ˆìŒ", 5), ("ê³µê°", 5), ("ì„œìš´", 4),
  ("ê°ì •", 5), ("ì†ìƒ", 5), ("ì–´ë–¡í•´", 5), ("ëŠë‚Œ", 4),
  ("ê°ì„±", 5), ("ì •ì„œ", 4), ("ìœ„ë¡œ", 5), ("íë§", 5),
  ("ë”°ëœ»", 4), ("ë°°ë ¤", 5), ("ì¡´ì¤‘", 4), ("ì´í•´", 4),
  ("ê³ ë¯¼", 4), ("ê±±ì •", 4), ("ë¶ˆì•ˆ", 4), ("ìŠ¬í””", 4),
  ("ê¸°ì¨", 3), ("í–‰ë³µ", 3), ("ì‚¬ë‘", 4), ("ì¢‹ì•„", 3),
  ("ì‹«ì–´", 3), ("í™”ë‚˜", 4), ("ì§œì¦", 4), ("ë‹µë‹µ", 4),
  ("ì–µìš¸", 5), ("ë¯¸ì•ˆ", 4), ("ê³ ë§ˆ", 4), ("ê°ë™", 5),
  ("ëˆˆë¬¼", 5), ("ìš¸", 4), ("ì•„í””", 4), ("ìƒì²˜", 5),
  ("ì¹˜ìœ ", 5), ("ë§ˆìŒì´", 5), ("ê°€ìŠ´", 4), ("ì‹¬ì •", 5),
  ("ê°ì •ì ", 5), ("ì¸ê°„ì ", 5), ("ë”°ëœ»í•œ", 5), ("ê³µê°í•´", 5),
  ("ìœ„ë¡œí•´", 5), ("í˜ë“¤", 4), ("ì•ˆì“°ëŸ¬", 5), ("ë¶ˆìŒ", 4),
  ("ì¸¡ì€", 5), ("ê¸°ë»", 4), ("ì§„ì‹¬", 4), ("ìš°ìš¸", 5),
  ("í˜ë‚´", 5), ("ê´œì°®", 4), ("ì‘ì›", 5), ("ì°©í•˜", 3)]

def dictJP_J : List (String × Nat) := [
  ("ê³„íš", 5), ("ì •ë¦¬", 4), ("ë¯¸ë¦¬", 5), ("í™•ì •", 4),
  ("ë¦¬ìŠ¤íŠ¸", 5), ("ì˜ˆì•½", 4), ("ìŠ¤ì¼€ì¤„", 5), ("ì¼ì •", 5),
  ("ì²´í¬", 4), ("ì¤€ë¹„", 4), ("ì‚¬ì „", 4), ("ë¯¸ë¦¬ë¯¸ë¦¬", 5),
  ("ì˜ˆì •", 4), ("ì •í•´", 4), ("ê²°ì •", 4), ("í™•ì‹¤", 4),
  ("ì •í™•", 3), ("ëª…í™•", 3), ("ì²´ê³„", 4), ("ìˆœì„œ", 4),
  ("ë‹¨ê³„", 4), ("ê·œì¹™", 4), ("ì›ì¹™", 4), ("ê¸°ì¤€", 3),
  ("ì •ëˆ", 4), ("ì •ë ¬", 4), ("ë¶„ë¥˜", 4), ("ë§ˆê°", 4),
  ("ë°ë“œë¼ì¸", 5), ("ê¸°í•œ", 4), ("ì‹œê°„ ë§ì¶°", 5), ("ì•½ì† ì‹œê°„", 5),
  ("ì •ì‹œ", 4), ("ì²´í¬ë¦¬ìŠ¤íŠ¸", 5), ("íˆ¬ë‘", 5), ("í•  ì¼", 4),
  ("ì™„ë£Œ", 3), ("ë§ˆë¬´ë¦¬", 4), ("ëë‚´", 3), ("ê¹”ë”", 4),
  ("ì •í™•íˆ", 4), ("í‹€ë¦¼ì—†ì´", 4)]

def dictJP_P : List (String × Nat) := [
  ("ì¦‰í¥", 5), ("ê·¸ë•Œ", 4), ("ìœ ì—°", 4), ("ëŒ€ì¶©", 4),
  ("ì¼ë‹¨", 5), ("ìƒí™© ë´ì„œ", 4), ("ë‚˜ì¤‘ì—", 4), ("ì²œì²œíˆ", 3),
  ("ì—¬ìœ ", 4), ("ììœ ", 4), ("í¸í•œ", 3), ("ëŠê¸‹", 4),
  ("ë§‰", 4), ("ì•„ë¬´", 3), ("ë­ë“ ", 4), ("ê·¸ëƒ¥", 3),
  ("ê·¸ë ‡ê²Œ", 2), ("ì•Œì•„ì„œ", 4), ("íë¦„", 4), ("íƒ€ì´ë°", 4),
  ("ìˆœê°„", 3), ("ìœµí†µ", 5), ("ì„ê¸°ì‘ë³€", 5), ("ì• ë“œë¦½", 5),
  ("ë³€í™”", 3), ("ì ì‘", 4), ("ì¡°ì ˆ", 3), ("ë°”ê¿”", 3),
  ("ë‹¤ì‹œ", 2), ("ë˜", 2), ("ë‚˜ì¤‘", 4), ("ë¯¸ë£¨", 5),
  ("ì¼ë‹¨ì€", 5), ("ê°€ë‹¤ê°€", 4), ("ë³´ë©´ì„œ", 4), ("ì§€ê¸ˆì€", 3),
  ("ë‹¹ì¥", 3), ("ê¸‰í•˜ê²Œ", 3), ("ì—¬ìœ ë¡­ê²Œ", 4), ("ë§‰ìƒ", 4),
  ("ìƒê°ë‚˜ë©´", 4), ("ëŒë¦¬ë©´", 4), ("í•˜ê³  ì‹¶ì„ ë•Œ", 5), ("ê¸°ë¶„ ë‚´í‚¬ ë•Œ", 5)]


/-- The keys of `DICTIONARY`, in insertion order. -/
def dictKeys : List String := ["EI", "SN", "TF", "JP"]

/-- `DICTIONARY[dim].items()`: the (trait, keyword list) pairs of a
dimension, in insertion order; `[]` stands for a missing key. -/
def DICTIONARY (dim : String) : List (String × List (String × Nat)) :=
  if dim = "EI" then [("E", dictEI_E), ("I", dictEI_I)]
  else if dim = "SN" then [("S", dictSN_S), ("N", dictSN_N)]
  else if dim = "TF" then [("T", dictTF_T), ("F", dictTF_F)]
  else if dim = "JP" then [("J", dictJP_J), ("P", dictJP_P)]
  else []

/-! ### The regex heuristics: each pattern is an alternation of literals. -/

def nPat : List String := ["ë§Œì•½ì—", "~ë¼ë©´", "ì–´ì©Œë©´", "ì–¸ì  ê°€", "ë¯¸ë˜ì—", "ê°€ëŠ¥ì„±", "ìƒìƒ"]

def sPat : List String := ["ì‹¤ì œë¡œ", "ê²½í—˜ìƒ", "ì§ì ‘", "í•´ë´¤", "ë³¸ ì ", "í˜„ì‹¤ì ìœ¼ë¡œ"]

def tPat : List String := ["ì™œ ê·¸ëŸ°ì§€", "ì´ìœ ê°€ ë­ì•¼", "ë…¼ë¦¬ì ", "í•©ë¦¬ì ", "ë”°ì ¸ë³´ë©´"]

def fPat : List String := ["ê¸°ë¶„ì´", "ë§ˆìŒì´", "ê°ì •ì ", "ê³µê°", "ìœ„ë¡œ", "ì†ìƒ", "ì„œìš´"]

def jPat : List String := ["ê³„íš", "ë¯¸ë¦¬", "ìŠ¤ì¼€ì¤„", "ì˜ˆì•½", "ì •í•´", "ì²´í¬ë¦¬ìŠ¤íŠ¸"]

def pPat : List String := ["ì¦‰í¥", "ì¼ë‹¨", "ìƒí™© ë´ì„œ", "ê·¸ë•Œ ê°€ì„œ", "ë‚˜ì¤‘ì—", "ëŒ€ì¶©"]

def abstract_words : List String := ["ê²ƒ", "ê±°", "ë­”ê°€", "ëŠë‚Œ", "ê°™ì€", "ë“¯"]

def concrete_words : List String := ["ë²ˆ", "ê°œ", "ëª…", "ì‹œ", "ë¶„", "íšŒ"]

def exclam_tokens : List String := ["!", "ã… ", "ã…œ", "ã…", "ã…‹", "â™¥", "â¤", "ğŸ˜¢", "ğŸ˜­", "ğŸ’•"]

def decisive_words : List String := ["í•´ì•¼", "í•  ê±°ì•¼", "í• ê²Œ", "ì˜ˆì •", "ë°˜ë“œì‹œ", "ê¼­"]

def uncertain_words : List String := ["ì•„ë§ˆ", "ê¸€ì„", "ëª¨ë¥´ê² ", "ë  ë“¯", "ì¼ë‹¨", "ì–´ì©Œë©´"]

/-- `re.search(pat, ans)` for the module's alternation-of-literals
patterns: true iff some alternative occurs in `ans`. -/
def reSearch (pats : List String) (ans : String) : Bool :=
  pats.any (fun w => substrIn w ans)

/-- `apply_style_correction(ans, dim, scores)` (lines 198-237): the
surface-statistics fallback.  Each branch updates exactly the fields the
source mutates. -/
def apply_style_correction (ans dim : String) (scores : Scores) : Scores :=
  let ans_len := ans.length
  let scores :=
    if dim = "EI" then
      if ans_len > 50 then { scores with E := scores.E + 1 }
      else if ans_len < 20 then { scores with I := scores.I + 1 }
      else scores
    else scores
  let scores :=
    if dim = "SN" then
      let abstract_count := abstract_words.countP (fun w => substrIn w ans)
      let scores :=
        if abstract_count ≥ 2 then { scores with N := scores.N + 1 } else scores
      let concrete_count := concrete_words.countP (fun w => substrIn w ans)
      if concrete_count ≥ 2 then { scores with S := scores.S + 1 } else scores
    else scores
  let scores :=
    if dim = "TF" then
      let question_indicators :=
        countOccs "?" ans + countOccs "ì–´ë–»ê²Œ" ans + countOccs "ì™œ" ans
      let scores :=
        if question_indicators ≥ 2 then { scores with T := scores.T + 1 } else scores
      let exclamation_count := (exclam_tokens.map (fun e => countOccs e ans)).sum
      if exclamation_count ≥ 3 then { scores with F := scores.F + 2 }
      else if exclamation_count ≥ 1 then { scores with F := scores.F + 1 }
      else scores
    else scores
  if dim = "JP" then
    let scores :=
      if decisive_words.any (fun w => substrIn w ans) then
        { scores with J := scores.J + 1 }
      else scores
    if uncertain_words.countP (fun w => substrIn w ans) ≥ 1 then
      { scores with P := scores.P + 1 }
    else scores
  else scores

/-! ### Lexicon matching and heuristic augmentation. -/

/-- The inner keyword loop: `for k in keywords: if k["word"] in answer:
scores[trait] += k["w"]; keyword_matched = True`, threading the
accumulator and the matched flag. -/
def traitFold (ans t : String) (kws : List (String × Nat))
    (acc : Scores × Bool) : Scores × Bool :=
  kws.foldl (fun a kw => if substrIn kw.1 ans then (a.1.add t kw.2, true) else a) acc

/-- The outer loop `for trait, keywords in DICTIONARY[dim].items()`. -/
def lexiconScan (ans dim : String) (acc : Scores × Bool) : Scores × Bool :=
  (DICTIONARY dim).foldl (fun a tk => traitFold ans tk.1 tk.2 a) acc

/-- One dimension's pair of regex-bonus rules, e.g. for SN:
`if re.search(nPat, ans): scores["N"] += 3; keyword_matched = True`
followed by the same for the S pattern.  The source repeats this shape
verbatim for SN, TF and JP in `calculate_partial_mbti`, `run_analysis`
and the second `analyze_single_answer`. -/
def heurRules (pa pb : List String) (ta tb : String) (ba bb : Nat)
    (ans : String) (acc : Scores × Bool) : Scores × Bool :=
  let acc := if reSearch pa ans then (acc.1.add ta ba, true) else acc
  if reSearch pb ans then (acc.1.add tb bb, true) else acc

/-- The three dimension-specific regex blocks (SN, TF, JP); EI has none. -/
def applyHeuristics (ans dim : String) (acc : Scores × Bool) : Scores × Bool :=
  let acc := if dim = "SN" then heurRules nPat sPat "N" "S" 3 3 ans acc else acc
  let acc := if dim = "TF" then heurRules tPat fPat "T" "F" 4 4 ans acc else acc
  if dim = "JP" then heurRules jPat pPat "J" "P" 3 3 ans acc else acc

/-- Lexicon matching followed by the regex heuristics, with the
`keyword_matched` flag (`if dimension in DICTIONARY` guards the lexicon
part, as in the second `analyze_single_answer`; for the four real
dimensions the guard is true, matching the other call sites). -/
def lexHeur (ans dim : String) (scores : Scores) : Scores × Bool :=
  let acc :=
    if dictKeys.contains dim then lexiconScan ans dim (scores, false)
    else (scores, false)
  applyHeuristics ans dim acc

/-- Matching plus the gated fallback:
`if not keyword_matched: apply_style_correction(ans, dim, scores)` —
the per-answer scoring used by the second `analyze_single_answer`,
`run_analysis` and (for `str` entries) `calculate_partial_mbti`. -/
def scoreStr (ans dim : String) (scores : Scores) : Scores :=
  let a := lexHeur ans dim scores
  if a.2 then a.1 else apply_style_correction ans dim a.1

/-! ### The two `get_dimension_for_question` definitions.  In Python the
second definition (lines 382-392) shadows the first (lines 151-160)
when the module loads, so the second keeps the source name. -/

/-- First (shadowed) definition, lines 151-160: the trailing `else`
returns `"JP"` for every index `≥ 9`, including `≥ 12`. -/
def get_dimension_for_question_v1 (question_index : Nat) : String :=
  if question_index < 3 then "EI"
  else if question_index < 6 then "SN"
  else if question_index < 9 then "TF"
  else "JP"

/-- Second (effective) definition, lines 382-392: returns `""` for
indices `≥ 12`. -/
def get_dimension_for_question (question_index : Nat) : String :=
  if question_index < 3 then "EI"
  else if question_index < 6 then "SN"
  else if question_index < 9 then "TF"
  else if question_index < 12 then "JP"
  else ""

/-! ### The two `analyze_single_answer` definitions. -/

/-- The side/score resolution of the first `analyze_single_answer`
(lines 178-189): four explicit branches, the final `else` being the JP
branch. -/
def v1_resolve (scores : Scores) (dimension : String) : String × Nat :=
  if dimension = "EI" then
    ((if scores.E ≥ scores.I then "E" else "I"), max scores.E scores.I)
  else if dimension = "SN" then
    ((if scores.S ≥ scores.N then "S" else "N"), max scores.S scores.N)
  else if dimension = "TF" then
    ((if scores.T ≥ scores.F then "T" else "F"), max scores.T scores.F)
  else
    ((if scores.J ≥ scores.P then "J" else "P"), max scores.J scores.P)

/-- First (shadowed) `analyze_single_answer`, lines 163-195: keyword
matching (no matched flag), then `apply_style_correction`
unconditionally, then the branchy resolution.  Returns
(scores, side, score). -/
def analyze_single_answer_v1 (answer dimension : String) : Scores × String × Nat :=
  let scores := Scores.zero
  let scores :=
    if dictKeys.contains dimension then (lexiconScan answer dimension (scores, false)).1
    else scores
  let scores := apply_style_correction answer dimension scores
  (scores, v1_resolve scores dimension)

/-- Second (effective) `analyze_single_answer`, lines 394-439: keyword
matching and regex heuristics with the `keyword_matched` flag, style
correction only when nothing matched, then
`trait1, trait2 = tuple(dimension)` and resolution via `scores.get`.
The source initialises `scores = {k: 0 for k in dimension}`, a dict
holding only the dimension's own letters; since every update and read
goes through those letters (with `.get` defaulting to 0), the full
8-field record is observationally equal.  Unpacking `tuple(dimension)`
into two names raises unless `dimension` has exactly two characters;
that raise is `none`. -/
def analyze_single_answer (answer dimension : String) :
    Option (Scores × String × Nat) :=
  let scores := scoreStr answer dimension Scores.zero
  match dimension.data with
  | [c1, c2] =>
    let trait1 := String.mk [c1]
    let trait2 := String.mk [c2]
    let side := if scores.get trait1 ≥ scores.get trait2 then trait1 else trait2
    some (scores, side, scores.get side)
  | _ => none

/-! ### `calculate_partial_mbti` (lines 240-318). -/

/-- A batch entry: a text answer or a non-`str` object (such as `None`)
on which Python's `in` containment test raises `TypeError`. -/
inductive Ans where
  | str (s : String)
  | nonstr
deriving Repr, DecidableEq

/-- One iteration of the `for i, ans in enumerate(answers)` loop of
`calculate_partial_mbti`: the index chooses the dimension (`""` for
`i ≥ 12`, then `continue`); every lexicon/heuristic/style use is guarded
by `isinstance(ans, str)`, so a non-`str` entry changes nothing. -/
def partialStep (i : Nat) (ans : Ans) (scores : Scores) : Scores :=
  let dim :=
    if i < 3 then "EI"
    else if i < 6 then "SN"
    else if i < 9 then "TF"
    else if i < 12 then "JP"
    else ""
  if dim = "" then scores
  else
    match ans with
    | .str s => scoreStr s dim scores
    | .nonstr => scores

/-- The enumerate loop, with the running index made explicit. -/
def partialLoop : Nat → List Ans → Scores → Scores
  | _, [], s => s
  | i, a :: rest, s => partialLoop (i + 1) rest (partialStep i a s)

/-- The label construction of lines 293-316: a trait letter once the
dimension's unlock count is reached, `"X"` before that, `"XXXX"` for an
empty batch. -/
def partialLabel (n : Nat) (scores : Scores) : String :=
  if n > 0 then
    (if n ≥ 3 then (if scores.E ≥ scores.I then "E" else "I") else "X") ++
    (if n ≥ 6 then (if scores.S ≥ scores.N then "S" else "N") else "X") ++
    (if n ≥ 9 then (if scores.T ≥ scores.F then "T" else "F") else "X") ++
    (if n ≥ 12 then (if scores.J ≥ scores.P then "J" else "P") else "X")
  else "XXXX"

/-- `calculate_partial_mbti(answers)`: returns (mbti label, scores). -/
def calculate_partial_mbti (answers : List Ans) : String × Scores :=
  let scores := partialLoop 0 answers Scores.zero
  (partialLabel answers.length scores, scores)

/-! ### `run_analysis` (lines 321-379). -/

/-- One iteration of the loop of `run_analysis`: the dimension
expression has no `i < 12` bound (`"JP"` for every `i ≥ 9`), and the
keyword loop evaluates `k["word"] in ans` unguarded, so a non-`str`
entry raises (`none`). -/
def runStep (i : Nat) (ans : Ans) (scores : Scores) : Option Scores :=
  let dim :=
    if i < 3 then "EI"
    else if i < 6 then "SN"
    else if i < 9 then "TF"
    else "JP"
  match ans with
  | .str s => some (scoreStr s dim scores)
  | .nonstr => none

/-- The enumerate loop of `run_analysis`; a raise propagates out. -/
def runLoop : Nat → List Ans → Scores → Option Scores
  | _, [], s => some s
  | i, a :: rest, s =>
    match runStep i a s with
    | none => none
    | some s2 => runLoop (i + 1) rest s2

/-- The final four-letter label of lines 362-367. -/
def final_mbti (scores : Scores) : String :=
  (if scores.E ≥ scores.I then "E" else "I") ++
  (if scores.S ≥ scores.N then "S" else "N") ++
  (if scores.T ≥ scores.F then "T" else "F") ++
  (if scores.J ≥ scores.P then "J" else "P")

/-- Python `round(x, 1)` on the values `get_conf` produces (see the file
comment on rounding). -/
def round1 (x : ℚ) : ℚ := ((⌊x * 10 + 1/2⌋ : ℤ) : ℚ) / 10

/-- `get_conf(a, b)` of lines 369-370:
`round((abs(a - b) / (a + b + 0.1)) * 100, 1)`. -/
def get_conf (a b : Nat) : ℚ :=
  round1 (|(a : ℚ) - (b : ℚ)| / ((a : ℚ) + (b : ℚ) + 1/10) * 100)

/-- The per-dimension confidence record of lines 372-377. -/
structure Confidence where
  EI : ℚ
  SN : ℚ
  TF : ℚ
  JP : ℚ
deriving DecidableEq

/-- `run_analysis(answers)`: (mbti, scores, confidence), or `none` when
a non-`str` entry raises. -/
def run_analysis (answers : List Ans) : Option (String × Scores × Confidence) :=
  match runLoop 0 answers Scores.zero with
  | none => none
  | some scores =>
    some (final_mbti scores, scores,
      ⟨get_conf scores.E scores.I, get_conf scores.S scores.N,
       get_conf scores.T scores.F, get_conf scores.J scores.P⟩)

/-- The weight a keyword list contributes to its trait for a given
answer: the sum of the weights of the entries whose word occurs. -/
def kwSum (ans : String) : List (String × Nat) → Nat
  | [] => 0
  | kw :: rest => (if substrIn kw.1 ans then kw.2 else 0) + kwSum ans rest

/-- Whether any entry of a keyword list matches the answer. -/
def anyKw (ans : String) (kws : List (String × Nat)) : Bool :=
  kws.any (fun kw => substrIn kw.1 ans)

/-- An answer with no Korean text: it matches no keyword, heuristic or
marker, and its 25-character length is in the neutral EI band. -/
def ansA : String := "aaaaaaaaaaaaaaaaaaaaaaaaa"

/-- Twelve neutral answers: every dimension stays tied at 0. -/
def listA12 : List Ans :=
  [Ans.str ansA, Ans.str ansA, Ans.str ansA, Ans.str ansA, Ans.str ansA, Ans.str ansA,
   Ans.str ansA, Ans.str ansA, Ans.str ansA, Ans.str ansA, Ans.str ansA, Ans.str ansA]

/-- C4: the claim as stated — over the four data-model dimensions there
is an answer on which the two textual definitions of
`analyze_single_answer` both see tied trait totals yet return different
winning sides. -/
def ties_disagree_between_definitions : Prop :=
  ∃ (ans dim : String) (c1 c2 : Char) (r2 : Scores × String × Nat),
    dim ∈ dictKeys ∧ dim.data = [c1, c2] ∧
    analyze_single_answer ans dim = some r2 ∧
    (analyze_single_answer_v1 ans dim).1.get (String.mk [c1])
      = (analyze_single_answer_v1 ans dim).1.get (String.mk [c2]) ∧
    r2.1.get (String.mk [c1]) = r2.1.get (String.mk [c2]) ∧
    (analyze_single_answer_v1 ans dim).2.1 ≠ r2.2.1

/-! ## Infrastructure lemmas -/

theorem Scores.add_zero (s : Scores) (t : String) : s.add t 0 = s := by
  unfold Scores.add
  split_ifs <;> simp

theorem Scores.add_add (s : Scores) (t : String) (a b : Nat) :
    (s.add t a).add t b = s.add t (a + b) := by
  unfold Scores.add
  split_ifs <;> simp <;> omega

theorem isPrefixOf_append_right (n l l2 : List Char) (h : n.isPrefixOf l = true) :
    n.isPrefixOf (l ++ l2) = true := by
  induction n generalizing l with
  | nil => simp [List.isPrefixOf]
  | cons a as ih =>
    cases l with
    | nil => simp [List.isPrefixOf] at h
    | cons c cs =>
      simp only [List.cons_append, List.isPrefixOf, Bool.and_eq_true] at h ⊢
      exact ⟨h.1, ih cs h.2⟩

theorem isPrefixOf_self (l : List Char) : l.isPrefixOf l = true := by
  induction l with
  | nil => rfl
  | cons a t ih => simp [List.isPrefixOf, ih]

theorem substrInAux_nil_needle (l : List Char) : substrInAux [] l = true := by
  induction l with
  | nil => rfl
  | cons c rest ih => simp [substrInAux, List.isPrefixOf]

theorem substrInAux_append (n h1 h2 : List Char) (h : substrInAux n h1 = true) :
    substrInAux n (h1 ++ h2) = true := by
  induction h1 with
  | nil =>
    cases n with
    | nil => simpa using substrInAux_nil_needle h2
    | cons a as => simp [substrInAux] at h
  | cons c cs ih =>
    simp only [substrInAux, Bool.or_eq_true] at h
    rcases h with h | h
    · simp only [List.cons_append, substrInAux, Bool.or_eq_true]
      exact Or.inl (isPrefixOf_append_right _ _ _ h)
    · simp only [List.cons_append, substrInAux, Bool.or_eq_true]
      exact Or.inr (ih h)

theorem substrInAux_suffix (n h : List Char) : substrInAux n (h ++ n) = true := by
  induction h with
  | nil =>
    cases n with
    | nil => rfl
    | cons c cs => simp [substrInAux, isPrefixOf_self]
  | cons c cs ih => simp [substrInAux, ih]

/-- Appending text on the right never destroys a substring match. -/
theorem substr_append (w a k : String) (h : substrIn w a = true) :
    substrIn w (a ++ k) = true := by
  unfold substrIn at h ⊢
  rw [String.data_append]
  exact substrInAux_append _ _ _ h

/-- An appended string occurs in the result. -/
theorem substr_suffix (a k : String) : substrIn k (a ++ k) = true := by
  unfold substrIn
  rw [String.data_append]
  exact substrInAux_suffix _ _

theorem traitFold_eq (ans t : String) (kws : List (String × Nat)) (s : Scores) (b : Bool) :
    traitFold ans t kws (s, b) = (s.add t (kwSum ans kws), b || anyKw ans kws) := by
  induction kws generalizing s b with
  | nil => simp [traitFold, kwSum, anyKw, Scores.add_zero]
  | cons kw rest ih =>
    by_cases h : substrIn kw.1 ans
    · have hstep : traitFold ans t (kw :: rest) (s, b)
          = traitFold ans t rest (s.add t kw.2, true) := by
        simp [traitFold, h]
      rw [hstep, ih]
      simp [kwSum, anyKw, h, Scores.add_add]
    · have hstep : traitFold ans t (kw :: rest) (s, b)
          = traitFold ans t rest (s, b) := by
        simp [traitFold, h]
      rw [hstep, ih]
      simp [kwSum, anyKw, h]

theorem kwSum_eq_zero (ans : String) (kws : List (String × Nat))
    (h : anyKw ans kws = false) : kwSum ans kws = 0 := by
  induction kws with
  | nil => rfl
  | cons kw rest ih =>
    simp only [anyKw, List.any_cons, Bool.or_eq_false_iff] at h
    rw [kwSum, h.1, ih (by simp [anyKw, h.2])]
    simp

theorem kwSum_le_append (ans k : String) (kws : List (String × Nat)) :
    kwSum ans kws ≤ kwSum (ans ++ k) kws := by
  induction kws with
  | nil => simp [kwSum]
  | cons kw rest ih =>
    have hstep : (if substrIn kw.1 ans then kw.2 else 0)
        ≤ (if substrIn kw.1 (ans ++ k) then kw.2 else 0) := by
      by_cases h : substrIn kw.1 ans
      · rw [if_pos h, if_pos (substr_append _ _ _ h)]
      · simp [h]
    rw [kwSum, kwSum]
    omega

theorem le_kwSum_of_mem (ans kw : String) (w : Nat) (kws : List (String × Nat))
    (hm : (kw, w) ∈ kws) (hs : substrIn kw ans = true) : w ≤ kwSum ans kws := by
  induction kws with
  | nil => simp at hm
  | cons kw0 rest ih =>
    rcases List.mem_cons.mp hm with h | h
    · rw [kwSum, ← h, hs]
      simp
    · rw [kwSum]
      have := ih h
      omega

theorem anyKw_of_mem (ans kw : String) (w : Nat) (kws : List (String × Nat))
    (hm : (kw, w) ∈ kws) (hs : substrIn kw ans = true) : anyKw ans kws = true := by
  simp only [anyKw, List.any_eq_true]
  exact ⟨(kw, w), hm, hs⟩

theorem reSearch_append (pats : List String) (ans k : String)
    (h : reSearch pats ans = true) : reSearch pats (ans ++ k) = true := by
  simp only [reSearch, List.any_eq_true] at h ⊢
  obtain ⟨w, hw, hs⟩ := h
  exact ⟨w, hw, substr_append _ _ _ hs⟩

theorem heurRules_eq (pa pb : List String) (ta tb : String) (ba bb : Nat)
    (ans : String) (s : Scores) (b : Bool) :
    heurRules pa pb ta tb ba bb ans (s, b) =
      ((s.add ta (if reSearch pa ans then ba else 0)).add tb
          (if reSearch pb ans then bb else 0),
        (b || reSearch pa ans) || reSearch pb ans) := by
  unfold heurRules
  by_cases h1 : reSearch pa ans <;> by_cases h2 : reSearch pb ans <;>
    simp [h1, h2, Scores.add_zero]

/-! ### Per-dimension characterizations of `lexHeur`. -/

theorem lexHeur_EI (ans : String) (s : Scores) :
    lexHeur ans "EI" s =
      ((s.add "E" (kwSum ans dictEI_E)).add "I" (kwSum ans dictEI_I),
        (false || anyKw ans dictEI_E) || anyKw ans dictEI_I) := by
  show applyHeuristics ans "EI" (lexiconScan ans "EI" (s, false)) = _
  rw [show lexiconScan ans "EI" (s, false)
      = traitFold ans "I" dictEI_I (traitFold ans "E" dictEI_E (s, false)) from rfl]
  rw [traitFold_eq, traitFold_eq]
  rfl

theorem lexHeur_SN (ans : String) (s : Scores) :
    lexHeur ans "SN" s =
      ((((s.add "S" (kwSum ans dictSN_S)).add "N" (kwSum ans dictSN_N)).add "N"
          (if reSearch nPat ans then 3 else 0)).add "S"
          (if reSearch sPat ans then 3 else 0),
        (((false || anyKw ans dictSN_S) || anyKw ans dictSN_N)
          || reSearch nPat ans) || reSearch sPat ans) := by
  show applyHeuristics ans "SN" (lexiconScan ans "SN" (s, false)) = _
  rw [show lexiconScan ans "SN" (s, false)
      = traitFold ans "N" dictSN_N (traitFold ans "S" dictSN_S (s, false)) from rfl]
  rw [traitFold_eq, traitFold_eq]
  show heurRules nPat sPat "N" "S" 3 3 ans _ = _
  rw [heurRules_eq]

theorem lexHeur_TF (ans : String) (s : Scores) :
    lexHeur ans "TF" s =
      ((((s.add "T" (kwSum ans dictTF_T)).add "F" (kwSum ans dictTF_F)).add "T"
          (if reSearch tPat ans then 4 else 0)).add "F"
          (if reSearch fPat ans then 4 else 0),
        (((false || anyKw ans dictTF_T) || anyKw ans dictTF_F)
          || reSearch tPat ans) || reSearch fPat ans) := by
  show applyHeuristics ans "TF" (lexiconScan ans "TF" (s, false)) = _
  rw [show lexiconScan ans "TF" (s, false)
      = traitFold ans "F" dictTF_F (traitFold ans "T" dictTF_T (s, false)) from rfl]
  rw [traitFold_eq, traitFold_eq]
  show heurRules tPat fPat "T" "F" 4 4 ans _ = _
  rw [heurRules_eq]
  simp

theorem lexHeur_JP (ans : String) (s : Scores) :
    lexHeur ans "JP" s =
      ((((s.add "J" (kwSum ans dictJP_J)).add "P" (kwSum ans dictJP_P)).add "J"
          (if reSearch jPat ans then 3 else 0)).add "P"
          (if reSearch pPat ans then 3 else 0),
        (((false || anyKw ans dictJP_J) || anyKw ans dictJP_P)
          || reSearch jPat ans) || reSearch pPat ans) := by
  show applyHeuristics ans "JP" (lexiconScan ans "JP" (s, false)) = _
  rw [show lexiconScan ans "JP" (s, false)
      = traitFold ans "P" dictJP_P (traitFold ans "J" dictJP_J (s, false)) from rfl]
  rw [traitFold_eq, traitFold_eq]
  show heurRules jPat pPat "J" "P" 3 3 ans _ = _
  rw [heurRules_eq]
  simp

/-- When the matched flag comes back `false`, nothing was added: the
lexicon/heuristic stage returns the scores unchanged. -/
theorem lexHeur_false (ans dim : String) (s : Scores)
    (h : (lexHeur ans dim s).2 = false) : (lexHeur ans dim s).1 = s := by
  by_cases hEI : dim = "EI"
  · subst hEI
    rw [lexHeur_EI] at h ⊢
    simp only [Bool.false_or, Bool.or_eq_false_iff] at h
    simp only
    rw [kwSum_eq_zero ans dictEI_E h.1, kwSum_eq_zero ans dictEI_I h.2,
      Scores.add_zero, Scores.add_zero]
  · by_cases hSN : dim = "SN"
    · subst hSN
      rw [lexHeur_SN] at h ⊢
      simp only [Bool.false_or, Bool.or_eq_false_iff] at h
      obtain ⟨⟨⟨h1, h2⟩, h3⟩, h4⟩ := h
      simp only
      rw [h3, h4, kwSum_eq_zero ans dictSN_S h1, kwSum_eq_zero ans dictSN_N h2]
      simp [Scores.add_zero]
    · by_cases hTF : dim = "TF"
      · subst hTF
        rw [lexHeur_TF] at h ⊢
        simp only [Bool.false_or, Bool.or_eq_false_iff] at h
        obtain ⟨⟨⟨h1, h2⟩, h3⟩, h4⟩ := h
        simp only
        rw [h3, h4, kwSum_eq_zero ans dictTF_T h1, kwSum_eq_zero ans dictTF_F h2]
        simp [Scores.add_zero]
      · by_cases hJP : dim = "JP"
        · subst hJP
          rw [lexHeur_JP] at h ⊢
          simp only [Bool.false_or, Bool.or_eq_false_iff] at h
          obtain ⟨⟨⟨h1, h2⟩, h3⟩, h4⟩ := h
          simp only
          rw [h3, h4, kwSum_eq_zero ans dictJP_J h1, kwSum_eq_zero ans dictJP_P h2]
          simp [Scores.add_zero]
        · have hcont : dictKeys.contains dim = false := by
            simp [dictKeys, hEI, hSN, hTF, hJP]
          have hlex : lexHeur ans dim s = applyHeuristics ans dim (s, false) := by
            unfold lexHeur
            rw [hcont]
            simp
          have hheur : applyHeuristics ans dim (s, false) = (s, false) := by
            unfold applyHeuristics
            simp only [if_neg hSN, if_neg hTF, if_neg hJP]
          rw [hlex, hheur]

/-! ### Characterizations of `apply_style_correction` per dimension
(each is definitional). -/

theorem style_EI (ans : String) (s : Scores) :
    apply_style_correction ans "EI" s =
      (if ans.length > 50 then { s with E := s.E + 1 }
       else if ans.length < 20 then { s with I := s.I + 1 }
       else s) := rfl

theorem style_SN (ans : String) (s : Scores) :
    apply_style_correction ans "SN" s =
      (let s1 :=
        if abstract_words.countP (fun w => substrIn w ans) ≥ 2 then
          { s with N := s.N + 1 }
        else s
       if concrete_words.countP (fun w => substrIn w ans) ≥ 2 then
         { s1 with S := s1.S + 1 }
       else s1) := rfl

theorem style_TF (ans : String) (s : Scores) :
    apply_style_correction ans "TF" s =
      (let s1 :=
        if countOccs "?" ans + countOccs "ì–´ë–»ê²Œ" ans + countOccs "ì™œ" ans ≥ 2 then
          { s with T := s.T + 1 }
        else s
       let ec := (exclam_tokens.map (fun e => countOccs e ans)).sum
       if ec ≥ 3 then { s1 with F := s1.F + 2 }
       else if ec ≥ 1 then { s1 with F := s1.F + 1 }
       else s1) := rfl

theorem style_JP (ans : String) (s : Scores) :
    apply_style_correction ans "JP" s =
      (let s1 :=
        if decisive_words.any (fun w => substrIn w ans) then
          { s with J := s.J + 1 }
        else s
       if uncertain_words.countP (fun w => substrIn w ans) ≥ 1 then
         { s1 with P := s1.P + 1 }
       else s1) := rfl

/-! Per-trait caps on what one style-correction call can add. -/

theorem style_cap_E (ans : String) (s : Scores) :
    (apply_style_correction ans "EI" s).E ≤ s.E + 1 := by
  rw [style_EI]; split_ifs <;> simp

theorem style_cap_I (ans : String) (s : Scores) :
    (apply_style_correction ans "EI" s).I ≤ s.I + 1 := by
  rw [style_EI]; split_ifs <;> simp

theorem style_cap_S (ans : String) (s : Scores) :
    (apply_style_correction ans "SN" s).S ≤ s.S + 1 := by
  rw [style_SN]; simp only; split_ifs <;> simp

theorem style_cap_N (ans : String) (s : Scores) :
    (apply_style_correction ans "SN" s).N ≤ s.N + 1 := by
  rw [style_SN]; simp only; split_ifs <;> simp

theorem style_cap_T (ans : String) (s : Scores) :
    (apply_style_correction ans "TF" s).T ≤ s.T + 1 := by
  rw [style_TF]; simp only; split_ifs <;> simp

theorem style_cap_F (ans : String) (s : Scores) :
    (apply_style_correction ans "TF" s).F ≤ s.F + 2 := by
  rw [style_TF]; simp only; split_ifs <;> simp

theorem style_cap_J (ans : String) (s : Scores) :
    (apply_style_correction ans "JP" s).J ≤ s.J + 1 := by
  rw [style_JP]; simp only; split_ifs <;> simp

theorem style_cap_P (ans : String) (s : Scores) :
    (apply_style_correction ans "JP" s).P ≤ s.P + 1 := by
  rw [style_JP]; simp only; split_ifs <;> simp

/-- `scoreStr` by cases on the matched flag (definitional). -/
theorem scoreStr_eq (ans dim : String) (s : Scores) :
    scoreStr ans dim s =
      (if (lexHeur ans dim s).2 then (lexHeur ans dim s).1
       else apply_style_correction ans dim (lexHeur ans dim s).1) := rfl

/-! ### Structural lemmas for labels and resolution. -/

theorem final_mbti_data (s : Scores) :
    (final_mbti s).data =
      [if s.E ≥ s.I then 'E' else 'I', if s.S ≥ s.N then 'S' else 'N',
       if s.T ≥ s.F then 'T' else 'F', if s.J ≥ s.P then 'J' else 'P'] := by
  unfold final_mbti
  split_ifs <;> rfl

theorem partialLabel_data (n : Nat) (s : Scores) :
    (partialLabel n s).data =
      [if n ≥ 3 then (if s.E ≥ s.I then 'E' else 'I') else 'X',
       if n ≥ 6 then (if s.S ≥ s.N then 'S' else 'N') else 'X',
       if n ≥ 9 then (if s.T ≥ s.F then 'T' else 'F') else 'X',
       if n ≥ 12 then (if s.J ≥ s.P then 'J' else 'P') else 'X'] := by
  unfold partialLabel
  by_cases h0 : n > 0
  · rw [if_pos h0]
    split_ifs <;> rfl
  · rw [if_neg h0]
    rw [if_neg (by omega : ¬n ≥ 3), if_neg (by omega : ¬n ≥ 6),
      if_neg (by omega : ¬n ≥ 9), if_neg (by omega : ¬n ≥ 12)]

theorem cpm_label (l : List Ans) :
    (calculate_partial_mbti l).1
      = partialLabel l.length (calculate_partial_mbti l).2 := rfl

theorem cpm_scores (l : List Ans) :
    (calculate_partial_mbti l).2 = partialLoop 0 l Scores.zero := rfl

theorem v1_resolve_EI (s : Scores) :
    v1_resolve s "EI" = ((if s.E ≥ s.I then "E" else "I"), max s.E s.I) := rfl

theorem v1_resolve_SN (s : Scores) :
    v1_resolve s "SN" = ((if s.S ≥ s.N then "S" else "N"), max s.S s.N) := rfl

theorem v1_resolve_TF (s : Scores) :
    v1_resolve s "TF" = ((if s.T ≥ s.F then "T" else "F"), max s.T s.F) := rfl

theorem v1_resolve_JP (s : Scores) :
    v1_resolve s "JP" = ((if s.J ≥ s.P then "J" else "P"), max s.J s.P) := rfl

theorem v1_snd (ans dim : String) :
    (analyze_single_answer_v1 ans dim).2
      = v1_resolve (analyze_single_answer_v1 ans dim).1 dim := rfl

theorem v2_EI (ans : String) :
    analyze_single_answer ans "EI" =
      some (scoreStr ans "EI" Scores.zero,
        (if (scoreStr ans "EI" Scores.zero).E ≥ (scoreStr ans "EI" Scores.zero).I
          then "E" else "I"),
        (scoreStr ans "EI" Scores.zero).get
          (if (scoreStr ans "EI" Scores.zero).E ≥ (scoreStr ans "EI" Scores.zero).I
            then "E" else "I")) := rfl

theorem v2_SN (ans : String) :
    analyze_single_answer ans "SN" =
      some (scoreStr ans "SN" Scores.zero,
        (if (scoreStr ans "SN" Scores.zero).S ≥ (scoreStr ans "SN" Scores.zero).N
          then "S" else "N"),
        (scoreStr ans "SN" Scores.zero).get
          (if (scoreStr ans "SN" Scores.zero).S ≥ (scoreStr ans "SN" Scores.zero).N
            then "S" else "N")) := rfl

theorem v2_TF (ans : String) :
    analyze_single_answer ans "TF" =
      some (scoreStr ans "TF" Scores.zero,
        (if (scoreStr ans "TF" Scores.zero).T ≥ (scoreStr ans "TF" Scores.zero).F
          then "T" else "F"),
        (scoreStr ans "TF" Scores.zero).get
          (if (scoreStr ans "TF" Scores.zero).T ≥ (scoreStr ans "TF" Scores.zero).F
            then "T" else "F")) := rfl

theorem v2_JP (ans : String) :
    analyze_single_answer ans "JP" =
      some (scoreStr ans "JP" Scores.zero,
        (if (scoreStr ans "JP" Scores.zero).J ≥ (scoreStr ans "JP" Scores.zero).P
          then "J" else "P"),
        (scoreStr ans "JP" Scores.zero).get
          (if (scoreStr ans "JP" Scores.zero).J ≥ (scoreStr ans "JP" Scores.zero).P
            then "J" else "P")) := rfl

theorem run_analysis_inv (l : List Ans) (m : String) (s : Scores) (c : Confidence)
    (h : run_analysis l = some (m, s, c)) :
    m = final_mbti s ∧ runLoop 0 l Scores.zero = some s ∧
      c = ⟨get_conf s.E s.I, get_conf s.S s.N, get_conf s.T s.F, get_conf s.J s.P⟩ := by
  unfold run_analysis at h
  cases hr : runLoop 0 l Scores.zero with
  | none => rw [hr] at h; exact absurd h (by simp)
  | some s0 =>
    rw [hr] at h
    simp only [Option.some_inj, Prod.mk.injEq] at h
    obtain ⟨hm, hs, hc⟩ := h
    subst hs
    exact ⟨hm.symm, rfl, hc.symm⟩

/-- `get_conf` written in terms of the winner (max) and loser (min)
totals: the formula is symmetric. -/
theorem get_conf_winner_loser (a b : Nat) :
    get_conf a b =
      round1 (|max (a:ℚ) (b:ℚ) - min (a:ℚ) (b:ℚ)|
        / (max (a:ℚ) (b:ℚ) + min (a:ℚ) (b:ℚ) + 1/10) * 100) := by
  unfold get_conf
  have h1 : max (a:ℚ) (b:ℚ) - min (a:ℚ) (b:ℚ) = |(b:ℚ) - (a:ℚ)| :=
    max_sub_min_eq_abs _ _
  rw [h1, abs_abs, abs_sub_comm (b:ℚ) (a:ℚ), max_add_min]

/-! ## Claims -/

/-- C2 (counterexample): the claim says the style corrector is applied
to EI always, even when a lexicon match occurred.  In the gated pipeline
(second `analyze_single_answer`, `run_analysis`, `calculate_partial_mbti`)
an answer that is exactly the first E-lexicon keyword produces a lexicon
match, and style correction is then skipped for EI too: the answer is 6
code points long (< 20), so the style corrector would have added 1 to I,
but I stays 0. -/
theorem C2_counterexample :
    (lexHeur "ê°™ì´" "EI" Scores.zero).2 = true ∧
    (scoreStr "ê°™ì´" "EI" Scores.zero).I = 0 ∧
    (apply_style_correction "ê°™ì´" "EI" ((lexHeur "ê°™ì´" "EI" Scores.zero).1)).I = 1 ∧
    (run_analysis [Ans.str "ê°™ì´"]).map (fun r => r.2.1.I) = some 0 := by
  refine ⟨by decide, by decide, by decide, by decide⟩

/-- C2 (amended): for every answer, dimension and starting accumulator:
if the lexicon matcher and heuristic augmenter together produce zero
matches, they leave the accumulator unchanged and the style corrector is
the sole contributor to the answer's scores; if they produce at least
one match, the style corrector is skipped — for all four dimensions,
including EI. -/
theorem C2_fallback_gating (ans dim : String) (prev : Scores) :
    ((lexHeur ans dim prev).2 = false →
        (lexHeur ans dim prev).1 = prev ∧
        scoreStr ans dim prev = apply_style_correction ans dim prev)
  ∧ ((lexHeur ans dim prev).2 = true →
        scoreStr ans dim prev = (lexHeur ans dim prev).1) := by
  constructor
  · intro h
    have h1 := lexHeur_false ans dim prev h
    refine ⟨h1, ?_⟩
    rw [scoreStr_eq, h, h1]
    simp
  · intro h
    rw [scoreStr_eq, h]
    simp

/-- C2 (witness): both branches at concrete inputs: an all-ASCII answer
matches nothing, so its EI score is pure style correction; the first
E-keyword matches, so style is skipped. -/
theorem C2_witness :
    scoreStr "aaa" "EI" Scores.zero = apply_style_correction "aaa" "EI" Scores.zero ∧
    scoreStr "ê°™ì´" "EI" Scores.zero = (lexHeur "ê°™ì´" "EI" Scores.zero).1 :=
  ⟨((C2_fallback_gating "aaa" "EI" Scores.zero).1 (by decide)).2,
   (C2_fallback_gating "ê°™ì´" "EI" Scores.zero).2 (by decide)⟩

/-- C3: the effective `get_dimension_for_question` (the second
definition, which shadows the first at import time) maps indices
[0,3) to EI, [3,6) to SN, [6,9) to TF, [9,12) to JP, and everything
from 12 on to the empty-string sentinel. -/
theorem C3_dimension_coverage (i : Nat) :
    (i < 3 → get_dimension_for_question i = "EI")
  ∧ (3 ≤ i → i < 6 → get_dimension_for_question i = "SN")
  ∧ (6 ≤ i → i < 9 → get_dimension_for_question i = "TF")
  ∧ (9 ≤ i → i < 12 → get_dimension_for_question i = "JP")
  ∧ (12 ≤ i → get_dimension_for_question i = "") := by
  unfold get_dimension_for_question
  refine ⟨?_, ?_, ?_, ?_, ?_⟩ <;> intros <;> split_ifs <;> first | rfl | omega

/-- C3 (witness): one index per interval. -/
theorem C3_witness :
    get_dimension_for_question 0 = "EI" ∧ get_dimension_for_question 3 = "SN"
  ∧ get_dimension_for_question 6 = "TF" ∧ get_dimension_for_question 9 = "JP"
  ∧ get_dimension_for_question 12 = "" :=
  ⟨(C3_dimension_coverage 0).1 (by decide),
   (C3_dimension_coverage 3).2.1 (by decide) (by decide),
   (C3_dimension_coverage 6).2.2.1 (by decide) (by decide),
   (C3_dimension_coverage 9).2.2.2.1 (by decide) (by decide),
   (C3_dimension_coverage 12).2.2.2.2 (by decide)⟩

/-- C6 (counterexample): the claim says confidence is 0 exactly when the
two totals are equal; but for the unequal totals 1000 and 1001 the raw
value 100/2001.1 ≈ 0.04997 rounds to 0.0 at one decimal place. -/
theorem C6_counterexample : get_conf 1000 1001 = 0 ∧ (1000 : Nat) ≠ 1001 := by
  constructor
  · have h2 : |(1000:ℚ) - (1001:ℚ)| / ((1000:ℚ) + (1001:ℚ) + 1/10) * 100 * 10 + 1/2
        = 40011/40022 := by
      rw [abs_sub_comm]
      rw [abs_of_nonneg (by norm_num : (0:ℚ) ≤ (1001:ℚ) - 1000)]
      norm_num
    unfold get_conf round1
    push_cast
    rw [h2]
    have h3 : ⌊(40011/40022 : ℚ)⌋ = 0 := by
      rw [Int.floor_eq_zero_iff]
      constructor <;> norm_num
    rw [h3]
    norm_num
  · decide

/-- C6 (amended): for every pair of non-negative trait totals the
confidence lies in [0, 100], and equal totals give confidence 0 (the
converse fails: very large nearly-equal totals also round to 0). -/
theorem C6_confidence_bounds (a b : Nat) :
    0 ≤ get_conf a b ∧ get_conf a b ≤ 100 ∧ (a = b → get_conf a b = 0) := by
  have ha : (0:ℚ) ≤ (a:ℚ) := Nat.cast_nonneg a
  have hb : (0:ℚ) ≤ (b:ℚ) := Nat.cast_nonneg b
  have hD : (0:ℚ) < (a:ℚ) + (b:ℚ) + 1/10 := by positivity
  have habs : |(a:ℚ) - (b:ℚ)| ≤ (a:ℚ) + (b:ℚ) := by
    rw [abs_sub_le_iff]
    constructor <;> nlinarith
  have hv0 : (0:ℚ) ≤ |(a:ℚ) - (b:ℚ)| / ((a:ℚ) + (b:ℚ) + 1/10) * 100 := by positivity
  have hvlt : |(a:ℚ) - (b:ℚ)| / ((a:ℚ) + (b:ℚ) + 1/10) * 100 < 100 := by
    have hr : |(a:ℚ) - (b:ℚ)| / ((a:ℚ) + (b:ℚ) + 1/10) < 1 := by
      rw [div_lt_one hD]
      linarith
    nlinarith
  refine ⟨?_, ?_, ?_⟩
  · unfold get_conf round1
    have hfl : (0:ℤ) ≤ ⌊|(a:ℚ) - (b:ℚ)| / ((a:ℚ) + (b:ℚ) + 1/10) * 100 * 10 + 1/2⌋ := by
      rw [Int.le_floor]
      push_cast
      nlinarith
    positivity
  · unfold get_conf round1
    have hfl : ⌊|(a:ℚ) - (b:ℚ)| / ((a:ℚ) + (b:ℚ) + 1/10) * 100 * 10 + 1/2⌋ < 1001 := by
      rw [Int.floor_lt]
      push_cast
      nlinarith
    have hfl2 : (⌊|(a:ℚ) - (b:ℚ)| / ((a:ℚ) + (b:ℚ) + 1/10) * 100 * 10 + 1/2⌋ : ℚ) ≤ 1000 := by
      have : ⌊|(a:ℚ) - (b:ℚ)| / ((a:ℚ) + (b:ℚ) + 1/10) * 100 * 10 + 1/2⌋ ≤ 1000 := by omega
      exact_mod_cast this
    linarith
  · intro hab
    subst hab
    unfold get_conf round1
    rw [sub_self, abs_zero, zero_div, zero_mul, zero_mul, zero_add]
    have h3 : ⌊(1/2 : ℚ)⌋ = 0 := by
      rw [Int.floor_eq_zero_iff]
      constructor <;> norm_num
    rw [h3]
    norm_num

/-- C6 (witness): equal totals give confidence 0. -/
theorem C6_witness : get_conf 2 2 = 0 :=
  (C6_confidence_bounds 2 2).2.2 rfl

/-- C10: in the SN style branch the abstract/concrete counts are
`sum(w in ans for w in words)` — one boolean per listed marker word —
so each of the six markers contributes at most 1 however often it
occurs; when at most one distinct marker occurs, the ≥ 2 threshold is
unreachable and the SN style correction changes neither N nor S. -/
theorem C10_distinct_marker_counts (ans : String) (s : Scores)
    (habs : abstract_words.countP (fun w => substrIn w ans) ≤ 1)
    (hcon : concrete_words.countP (fun w => substrIn w ans) ≤ 1) :
    (apply_style_correction ans "SN" s).N = s.N ∧
    (apply_style_correction ans "SN" s).S = s.S := by
  have h1 : ¬ abstract_words.countP (fun w => substrIn w ans) ≥ 2 := by omega
  have h2 : ¬ concrete_words.countP (fun w => substrIn w ans) ≥ 2 := by omega
  rw [style_SN]
  simp only [if_neg h1, if_neg h2]
  trivial

/-- C10 (witness): the first abstract marker repeated five times: it
occurs 5 times but counts once, stays below the threshold, and the SN
style correction adds nothing. -/
theorem C10_witness :
    abstract_words.countP (fun w => substrIn w "ê²ƒê²ƒê²ƒê²ƒê²ƒ") = 1 ∧
    countOccs "ê²ƒ" "ê²ƒê²ƒê²ƒê²ƒê²ƒ" = 5 ∧
    (apply_style_correction "ê²ƒê²ƒê²ƒê²ƒê²ƒ" "SN" Scores.zero).N = 0 ∧
    (apply_style_correction "ê²ƒê²ƒê²ƒê²ƒê²ƒ" "SN" Scores.zero).S = 0 :=
  ⟨by decide, by decide,
   (C10_distinct_marker_counts "ê²ƒê²ƒê²ƒê²ƒê²ƒ" Scores.zero (by decide) (by decide)).1,
   (C10_distinct_marker_counts "ê²ƒê²ƒê²ƒê²ƒê²ƒ" Scores.zero (by decide) (by decide)).2⟩

/-- C7: the partial-mode label has exactly four positions in fixed
EI, SN, TF, JP order; each position holds the dimension's winning trait
once the batch has reached the dimension's unlock count (3, 6, 9, 12)
and the placeholder 'X' before that; in particular a 5-answer session
yields a first character in {E, I} and 'X' everywhere else. -/
theorem C7_partial_label_shape (l : List Ans) :
    ((calculate_partial_mbti l).1).data =
      [if l.length ≥ 3 then
        (if (calculate_partial_mbti l).2.E ≥ (calculate_partial_mbti l).2.I
          then 'E' else 'I') else 'X',
       if l.length ≥ 6 then
        (if (calculate_partial_mbti l).2.S ≥ (calculate_partial_mbti l).2.N
          then 'S' else 'N') else 'X',
       if l.length ≥ 9 then
        (if (calculate_partial_mbti l).2.T ≥ (calculate_partial_mbti l).2.F
          then 'T' else 'F') else 'X',
       if l.length ≥ 12 then
        (if (calculate_partial_mbti l).2.J ≥ (calculate_partial_mbti l).2.P
          then 'J' else 'P') else 'X']
  ∧ (l.length = 5 →
      (((calculate_partial_mbti l).1).data[0]? = some 'E'
        ∨ ((calculate_partial_mbti l).1).data[0]? = some 'I')
      ∧ ((calculate_partial_mbti l).1).data.drop 1 = ['X', 'X', 'X']) := by
  have hd : ((calculate_partial_mbti l).1).data =
      [if l.length ≥ 3 then
        (if (calculate_partial_mbti l).2.E ≥ (calculate_partial_mbti l).2.I
          then 'E' else 'I') else 'X',
       if l.length ≥ 6 then
        (if (calculate_partial_mbti l).2.S ≥ (calculate_partial_mbti l).2.N
          then 'S' else 'N') else 'X',
       if l.length ≥ 9 then
        (if (calculate_partial_mbti l).2.T ≥ (calculate_partial_mbti l).2.F
          then 'T' else 'F') else 'X',
       if l.length ≥ 12 then
        (if (calculate_partial_mbti l).2.J ≥ (calculate_partial_mbti l).2.P
          then 'J' else 'P') else 'X'] := by
    rw [cpm_label, partialLabel_data]
  refine ⟨hd, fun h5 => ?_⟩
  rw [hd, h5]
  rw [if_pos (by omega : (5:Nat) ≥ 3), if_neg (by omega : ¬(5:Nat) ≥ 6),
    if_neg (by omega : ¬(5:Nat) ≥ 9), if_neg (by omega : ¬(5:Nat) ≥ 12)]
  constructor
  · by_cases hc : (calculate_partial_mbti l).2.E ≥ (calculate_partial_mbti l).2.I
    · rw [if_pos hc]; exact Or.inl rfl
    · rw [if_neg hc]; exact Or.inr rfl
  · rfl

/-- C7 (witness): a 5-answer session over neutral answers yields first
character E or I and the rest X. -/
theorem C7_witness :
    (((calculate_partial_mbti
        [Ans.str ansA, Ans.str ansA, Ans.str ansA, Ans.str ansA, Ans.str ansA]).1).data[0]?
          = some 'E'
      ∨ ((calculate_partial_mbti
        [Ans.str ansA, Ans.str ansA, Ans.str ansA, Ans.str ansA, Ans.str ansA]).1).data[0]?
          = some 'I')
    ∧ ((calculate_partial_mbti
        [Ans.str ansA, Ans.str ansA, Ans.str ansA, Ans.str ansA, Ans.str ansA]).1).data.drop 1
        = ['X', 'X', 'X'] :=
  (C7_partial_label_shape
    [Ans.str ansA, Ans.str ansA, Ans.str ansA, Ans.str ansA, Ans.str ansA]).2 (by decide)

/-- Ties in a `≥`-comparison resolve to the first alternative. -/
theorem ite_ge_self {α : Sort _} (a b : Nat) (x y : α) (h : a = b) :
    (if a ≥ b then x else y) = x := if_pos (by omega)

/-- C1 (counterexample): the claim says ties break to the second trait
of each pair (I over E, ...).  A neutral 25-character answer leaves the
EI totals tied at 0, and the winning side is "E", not "I" — in both
textual definitions of `analyze_single_answer`. -/
theorem C1_counterexample :
    (analyze_single_answer_v1 ansA "EI").1.E = (analyze_single_answer_v1 ansA "EI").1.I
  ∧ (analyze_single_answer_v1 ansA "EI").2.1 = "E"
  ∧ (analyze_single_answer_v1 ansA "EI").2.1 ≠ "I"
  ∧ analyze_single_answer ansA "EI" = some (Scores.zero, "E", 0) := by
  refine ⟨by decide, by decide, by decide, by decide⟩

set_option maxHeartbeats 1600000 in
/-- The side component of the first `analyze_single_answer`, per
dimension (definitional). -/
theorem v1_side_EI (ans : String) :
    (analyze_single_answer_v1 ans "EI").2.1
      = (if (analyze_single_answer_v1 ans "EI").1.E ≥ (analyze_single_answer_v1 ans "EI").1.I
          then "E" else "I") := rfl

set_option maxHeartbeats 1600000 in
theorem v1_side_SN (ans : String) :
    (analyze_single_answer_v1 ans "SN").2.1
      = (if (analyze_single_answer_v1 ans "SN").1.S ≥ (analyze_single_answer_v1 ans "SN").1.N
          then "S" else "N") := rfl

set_option maxHeartbeats 1600000 in
theorem v1_side_TF (ans : String) :
    (analyze_single_answer_v1 ans "TF").2.1
      = (if (analyze_single_answer_v1 ans "TF").1.T ≥ (analyze_single_answer_v1 ans "TF").1.F
          then "T" else "F") := rfl

set_option maxHeartbeats 1600000 in
theorem v1_side_JP (ans : String) :
    (analyze_single_answer_v1 ans "JP").2.1
      = (if (analyze_single_answer_v1 ans "JP").1.J ≥ (analyze_single_answer_v1 ans "JP").1.P
          then "J" else "P") := rfl

/-! Label characters under a tie, for the partial and final labels. -/

theorem label_char0 (n : Nat) (s : Scores) (h3 : n ≥ 3) (h : s.E = s.I) :
    (partialLabel n s).data[0]? = some 'E' := by
  rw [partialLabel_data, if_pos h3, ite_ge_self _ _ _ _ h]
  rfl

theorem label_char1 (n : Nat) (s : Scores) (h6 : n ≥ 6) (h : s.S = s.N) :
    (partialLabel n s).data[1]? = some 'S' := by
  rw [partialLabel_data, if_pos h6, ite_ge_self _ _ _ _ h]
  rfl

theorem label_char2 (n : Nat) (s : Scores) (h9 : n ≥ 9) (h : s.T = s.F) :
    (partialLabel n s).data[2]? = some 'T' := by
  rw [partialLabel_data, if_pos h9, ite_ge_self _ _ _ _ h]
  rfl

theorem label_char3 (n : Nat) (s : Scores) (h12 : n ≥ 12) (h : s.J = s.P) :
    (partialLabel n s).data[3]? = some 'J' := by
  rw [partialLabel_data, if_pos h12, ite_ge_self _ _ _ _ h]
  rfl

theorem final_char0 (s : Scores) (h : s.E = s.I) :
    (final_mbti s).data[0]? = some 'E' := by
  rw [final_mbti_data, ite_ge_self _ _ _ _ h]
  rfl

theorem final_char1 (s : Scores) (h : s.S = s.N) :
    (final_mbti s).data[1]? = some 'S' := by
  rw [final_mbti_data, ite_ge_self _ _ _ _ h]
  rfl

theorem final_char2 (s : Scores) (h : s.T = s.F) :
    (final_mbti s).data[2]? = some 'T' := by
  rw [final_mbti_data, ite_ge_self _ _ _ _ h]
  rfl

theorem final_char3 (s : Scores) (h : s.J = s.P) :
    (final_mbti s).data[3]? = some 'J' := by
  rw [final_mbti_data, ite_ge_self _ _ _ _ h]
  rfl

/-- C1 (amended): when scoring leaves a dimension's two trait totals
equal, the winning trait is the fixed default FIRST trait of the pair
(E over I, S over N, T over F, J over P) — in both single-answer
scorers, in partial-mode labels, and in final-mode labels. -/
theorem C1_tie_breaks_to_first_trait (ans : String) (l : List Ans) :
    ((analyze_single_answer_v1 ans "EI").1.E = (analyze_single_answer_v1 ans "EI").1.I →
      (analyze_single_answer_v1 ans "EI").2.1 = "E")
  ∧ ((analyze_single_answer_v1 ans "SN").1.S = (analyze_single_answer_v1 ans "SN").1.N →
      (analyze_single_answer_v1 ans "SN").2.1 = "S")
  ∧ ((analyze_single_answer_v1 ans "TF").1.T = (analyze_single_answer_v1 ans "TF").1.F →
      (analyze_single_answer_v1 ans "TF").2.1 = "T")
  ∧ ((analyze_single_answer_v1 ans "JP").1.J = (analyze_single_answer_v1 ans "JP").1.P →
      (analyze_single_answer_v1 ans "JP").2.1 = "J")
  ∧ (∀ r, analyze_single_answer ans "EI" = some r → r.1.E = r.1.I → r.2.1 = "E")
  ∧ (∀ r, analyze_single_answer ans "SN" = some r → r.1.S = r.1.N → r.2.1 = "S")
  ∧ (∀ r, analyze_single_answer ans "TF" = some r → r.1.T = r.1.F → r.2.1 = "T")
  ∧ (∀ r, analyze_single_answer ans "JP" = some r → r.1.J = r.1.P → r.2.1 = "J")
  ∧ ((calculate_partial_mbti l).2.E = (calculate_partial_mbti l).2.I → l.length ≥ 3 →
      ((calculate_partial_mbti l).1).data[0]? = some 'E')
  ∧ ((calculate_partial_mbti l).2.S = (calculate_partial_mbti l).2.N → l.length ≥ 6 →
      ((calculate_partial_mbti l).1).data[1]? = some 'S')
  ∧ ((calculate_partial_mbti l).2.T = (calculate_partial_mbti l).2.F → l.length ≥ 9 →
      ((calculate_partial_mbti l).1).data[2]? = some 'T')
  ∧ ((calculate_partial_mbti l).2.J = (calculate_partial_mbti l).2.P → l.length ≥ 12 →
      ((calculate_partial_mbti l).1).data[3]? = some 'J')
  ∧ (∀ m s c, run_analysis l = some (m, s, c) →
      (s.E = s.I → m.data[0]? = some 'E') ∧ (s.S = s.N → m.data[1]? = some 'S')
      ∧ (s.T = s.F → m.data[2]? = some 'T') ∧ (s.J = s.P → m.data[3]? = some 'J')) := by
  refine ⟨fun h => (v1_side_EI ans).trans (ite_ge_self _ _ _ _ h),
    fun h => (v1_side_SN ans).trans (ite_ge_self _ _ _ _ h),
    fun h => (v1_side_TF ans).trans (ite_ge_self _ _ _ _ h),
    fun h => (v1_side_JP ans).trans (ite_ge_self _ _ _ _ h),
    ?_, ?_, ?_, ?_, ?_, ?_, ?_, ?_, ?_⟩
  · intro r hr htie
    rw [v2_EI] at hr
    obtain rfl := (Option.some_inj.mp hr).symm
    exact ite_ge_self _ _ _ _ htie
  · intro r hr htie
    rw [v2_SN] at hr
    obtain rfl := (Option.some_inj.mp hr).symm
    exact ite_ge_self _ _ _ _ htie
  · intro r hr htie
    rw [v2_TF] at hr
    obtain rfl := (Option.some_inj.mp hr).symm
    exact ite_ge_self _ _ _ _ htie
  · intro r hr htie
    rw [v2_JP] at hr
    obtain rfl := (Option.some_inj.mp hr).symm
    exact ite_ge_self _ _ _ _ htie
  · intro htie hlen
    exact (congrArg (fun str => str.data[0]?) (cpm_label l)).trans
      (label_char0 _ _ hlen htie)
  · intro htie hlen
    exact (congrArg (fun str => str.data[1]?) (cpm_label l)).trans
      (label_char1 _ _ hlen htie)
  · intro htie hlen
    exact (congrArg (fun str => str.data[2]?) (cpm_label l)).trans
      (label_char2 _ _ hlen htie)
  · intro htie hlen
    exact (congrArg (fun str => str.data[3]?) (cpm_label l)).trans
      (label_char3 _ _ hlen htie)
  · intro m s c hr
    obtain ⟨hm, -, -⟩ := run_analysis_inv l m s c hr
    subst hm
    exact ⟨fun htie => final_char0 s htie, fun htie => final_char1 s htie,
      fun htie => final_char2 s htie, fun htie => final_char3 s htie⟩

/-- C1 (witness): at a fully tied 12-answer session the default first
traits come out everywhere: "E" in both single-answer scorers and 'E',
'J' in the partial and final labels. -/
theorem C1_witness :
    (analyze_single_answer_v1 ansA "EI").2.1 = "E"
  ∧ (Scores.zero, "E", (0:Nat)).2.1 = "E"
  ∧ ((calculate_partial_mbti listA12).1).data[0]? = some 'E'
  ∧ ((calculate_partial_mbti listA12).1).data[3]? = some 'J'
  ∧ ("ESTJ" : String).data[0]? = some 'E' := by
  have hrun : run_analysis listA12 = some ("ESTJ", Scores.zero,
      ⟨get_conf 0 0, get_conf 0 0, get_conf 0 0, get_conf 0 0⟩) := by
    have h : runLoop 0 listA12 Scores.zero = some Scores.zero := by decide
    unfold run_analysis
    rw [h]
    rfl
  refine ⟨(C1_tie_breaks_to_first_trait ansA listA12).1 (by decide),
    (C1_tie_breaks_to_first_trait ansA listA12).2.2.2.2.1
      (Scores.zero, "E", 0) (by decide) (by decide),
    (C1_tie_breaks_to_first_trait ansA listA12).2.2.2.2.2.2.2.2.1 (by decide) (by decide),
    (C1_tie_breaks_to_first_trait ansA listA12).2.2.2.2.2.2.2.2.2.2.2.1
      (by decide) (by decide),
    ((C1_tie_breaks_to_first_trait ansA listA12).2.2.2.2.2.2.2.2.2.2.2.2
      "ESTJ" Scores.zero ⟨get_conf 0 0, get_conf 0 0, get_conf 0 0, get_conf 0 0⟩
      hrun).1 (by decide)⟩

/-- C4 (counterexample): no such disagreement exists — on equal totals
both definitions return the first trait of the pair, hence the same
side. -/
theorem C4_counterexample : ¬ ties_disagree_between_definitions := by
  rintro ⟨ans, dim, c1, c2, r2, hmem, hdata, hv2, h1, h2, hne⟩
  simp only [dictKeys, List.mem_cons, List.not_mem_nil, or_false] at hmem
  rcases hmem with rfl | rfl | rfl | rfl
  · rw [show ("EI" : String).data = ['E', 'I'] from rfl] at hdata
    simp only [List.cons.injEq, and_true] at hdata
    obtain ⟨hc1, hc2⟩ := hdata
    subst hc1; subst hc2
    rw [v2_EI] at hv2
    obtain rfl := (Option.some_inj.mp hv2).symm
    exact hne (((v1_side_EI ans).trans (ite_ge_self _ _ _ _ h1)).trans
      (ite_ge_self _ _ _ _ h2).symm)
  · rw [show ("SN" : String).data = ['S', 'N'] from rfl] at hdata
    simp only [List.cons.injEq, and_true] at hdata
    obtain ⟨hc1, hc2⟩ := hdata
    subst hc1; subst hc2
    rw [v2_SN] at hv2
    obtain rfl := (Option.some_inj.mp hv2).symm
    exact hne (((v1_side_SN ans).trans (ite_ge_self _ _ _ _ h1)).trans
      (ite_ge_self _ _ _ _ h2).symm)
  · rw [show ("TF" : String).data = ['T', 'F'] from rfl] at hdata
    simp only [List.cons.injEq, and_true] at hdata
    obtain ⟨hc1, hc2⟩ := hdata
    subst hc1; subst hc2
    rw [v2_TF] at hv2
    obtain rfl := (Option.some_inj.mp hv2).symm
    exact hne (((v1_side_TF ans).trans (ite_ge_self _ _ _ _ h1)).trans
      (ite_ge_self _ _ _ _ h2).symm)
  · rw [show ("JP" : String).data = ['J', 'P'] from rfl] at hdata
    simp only [List.cons.injEq, and_true] at hdata
    obtain ⟨hc1, hc2⟩ := hdata
    subst hc1; subst hc2
    rw [v2_JP] at hv2
    obtain rfl := (Option.some_inj.mp hv2).symm
    exact hne (((v1_side_JP ans).trans (ite_ge_self _ _ _ _ h1)).trans
      (ite_ge_self _ _ _ _ h2).symm)

/-- C4 (amended): the two textual definitions of `analyze_single_answer`
encode the SAME tie-break default: over the four dimensions, whenever a
definition sees equal trait totals it returns the first trait of the
pair — so the two definitions agree on which side wins on equality
(they differ elsewhere: heuristics and style-correction gating, not the
tie rule). -/
theorem C4_same_tie_break (ans dim : String) (c1 c2 : Char) (r2 : Scores × String × Nat)
    (hmem : dim ∈ dictKeys) (hdata : dim.data = [c1, c2])
    (hv2 : analyze_single_answer ans dim = some r2) :
    ((analyze_single_answer_v1 ans dim).1.get (String.mk [c1])
        = (analyze_single_answer_v1 ans dim).1.get (String.mk [c2]) →
      (analyze_single_answer_v1 ans dim).2.1 = String.mk [c1])
  ∧ (r2.1.get (String.mk [c1]) = r2.1.get (String.mk [c2]) →
      r2.2.1 = String.mk [c1]) := by
  simp only [dictKeys, List.mem_cons, List.not_mem_nil, or_false] at hmem
  rcases hmem with rfl | rfl | rfl | rfl
  · rw [show ("EI" : String).data = ['E', 'I'] from rfl] at hdata
    simp only [List.cons.injEq, and_true] at hdata
    obtain ⟨hc1, hc2⟩ := hdata
    subst hc1; subst hc2
    rw [v2_EI] at hv2
    obtain rfl := (Option.some_inj.mp hv2).symm
    exact ⟨fun h1 => (v1_side_EI ans).trans (ite_ge_self _ _ _ _ h1),
      fun h2 => ite_ge_self _ _ _ _ h2⟩
  · rw [show ("SN" : String).data = ['S', 'N'] from rfl] at hdata
    simp only [List.cons.injEq, and_true] at hdata
    obtain ⟨hc1, hc2⟩ := hdata
    subst hc1; subst hc2
    rw [v2_SN] at hv2
    obtain rfl := (Option.some_inj.mp hv2).symm
    exact ⟨fun h1 => (v1_side_SN ans).trans (ite_ge_self _ _ _ _ h1),
      fun h2 => ite_ge_self _ _ _ _ h2⟩
  · rw [show ("TF" : String).data = ['T', 'F'] from rfl] at hdata
    simp only [List.cons.injEq, and_true] at hdata
    obtain ⟨hc1, hc2⟩ := hdata
    subst hc1; subst hc2
    rw [v2_TF] at hv2
    obtain rfl := (Option.some_inj.mp hv2).symm
    exact ⟨fun h1 => (v1_side_TF ans).trans (ite_ge_self _ _ _ _ h1),
      fun h2 => ite_ge_self _ _ _ _ h2⟩
  · rw [show ("JP" : String).data = ['J', 'P'] from rfl] at hdata
    simp only [List.cons.injEq, and_true] at hdata
    obtain ⟨hc1, hc2⟩ := hdata
    subst hc1; subst hc2
    rw [v2_JP] at hv2
    obtain rfl := (Option.some_inj.mp hv2).symm
    exact ⟨fun h1 => (v1_side_JP ans).trans (ite_ge_self _ _ _ _ h1),
      fun h2 => ite_ge_self _ _ _ _ h2⟩

/-- C4 (witness): on a neutral answer both definitions see a tie for EI
and both resolve it to "E". -/
theorem C4_witness :
    (analyze_single_answer_v1 ansA "EI").2.1 = String.mk ['E']
  ∧ ((Scores.zero, "E", (0:Nat)) : Scores × String × Nat).2.1 = String.mk ['E'] :=
  ⟨(C4_same_tie_break ansA "EI" 'E' 'I' (Scores.zero, "E", 0)
      (by decide) rfl (by decide)).1 (by decide),
   (C4_same_tie_break ansA "EI" 'E' 'I' (Scores.zero, "E", 0)
      (by decide) rfl (by decide)).2 (by decide)⟩

/-- C5: in final mode the confidence reported for each dimension equals
`round1(|winner − loser| / (winner + loser + 0.1) * 100)` computed from
that dimension's two trait totals only (winner = max, loser = min). -/
theorem C5_final_mode_confidence (l : List Ans) (m : String) (s : Scores) (c : Confidence)
    (h : run_analysis l = some (m, s, c)) :
    c.EI = round1 (|max (s.E:ℚ) (s.I:ℚ) - min (s.E:ℚ) (s.I:ℚ)|
        / (max (s.E:ℚ) (s.I:ℚ) + min (s.E:ℚ) (s.I:ℚ) + 1/10) * 100)
  ∧ c.SN = round1 (|max (s.S:ℚ) (s.N:ℚ) - min (s.S:ℚ) (s.N:ℚ)|
        / (max (s.S:ℚ) (s.N:ℚ) + min (s.S:ℚ) (s.N:ℚ) + 1/10) * 100)
  ∧ c.TF = round1 (|max (s.T:ℚ) (s.F:ℚ) - min (s.T:ℚ) (s.F:ℚ)|
        / (max (s.T:ℚ) (s.F:ℚ) + min (s.T:ℚ) (s.F:ℚ) + 1/10) * 100)
  ∧ c.JP = round1 (|max (s.J:ℚ) (s.P:ℚ) - min (s.J:ℚ) (s.P:ℚ)|
        / (max (s.J:ℚ) (s.P:ℚ) + min (s.J:ℚ) (s.P:ℚ) + 1/10) * 100) := by
  obtain ⟨-, -, hc⟩ := run_analysis_inv l m s c h
  subst hc
  exact ⟨get_conf_winner_loser _ _, get_conf_winner_loser _ _,
    get_conf_winner_loser _ _, get_conf_winner_loser _ _⟩

/-- C5 (witness): the empty session reaches final-mode resolution with
all totals 0, and its EI confidence satisfies the winner/loser formula. -/
theorem C5_witness :
    (Confidence.mk (get_conf 0 0) (get_conf 0 0) (get_conf 0 0) (get_conf 0 0)).EI =
      round1 (|max (Scores.zero.E:ℚ) (Scores.zero.I:ℚ)
          - min (Scores.zero.E:ℚ) (Scores.zero.I:ℚ)|
        / (max (Scores.zero.E:ℚ) (Scores.zero.I:ℚ)
          + min (Scores.zero.E:ℚ) (Scores.zero.I:ℚ) + 1/10) * 100) :=
  (C5_final_mode_confidence [] "ESTJ" Scores.zero
    (Confidence.mk (get_conf 0 0) (get_conf 0 0) (get_conf 0 0) (get_conf 0 0)) rfl).1

/-! ### C9: non-text entries. -/

theorem partialStep_nonstr (i : Nat) (s : Scores) :
    partialStep i Ans.nonstr s = s := by
  simp only [partialStep]
  split_ifs <;> rfl

theorem partialLoop_append (l1 l2 : List Ans) (i : Nat) (s : Scores) :
    partialLoop i (l1 ++ l2) s = partialLoop (i + l1.length) l2 (partialLoop i l1 s) := by
  induction l1 generalizing i s with
  | nil => simp [partialLoop]
  | cons a rest ih =>
    have h1 : partialLoop i ((a :: rest) ++ l2) s
        = partialLoop (i + 1) (rest ++ l2) (partialStep i a s) := rfl
    have h2 : partialLoop i (a :: rest) s
        = partialLoop (i + 1) rest (partialStep i a s) := rfl
    rw [h1, h2, ih]
    have he : i + 1 + rest.length = i + (a :: rest).length := by
      simp [List.length_cons]
      omega
    rw [he]

theorem runLoop_nonstr (l1 l2 : List Ans) (i : Nat) (s : Scores) :
    runLoop i (l1 ++ Ans.nonstr :: l2) s = none := by
  induction l1 generalizing i s with
  | nil => rfl
  | cons a rest ih =>
    simp only [List.cons_append, runLoop]
    cases h : runStep i a s with
    | none => rfl
    | some s2 => exact ih (i + 1) s2

/-- C9 (corrected): a non-text batch entry contributes nothing to any
trait score in partial mode — the per-entry step is the identity and the
accumulator passes through it unchanged — while it still occupies its
position for the unlock thresholds (the label is built from the full
length, counting the entry); but in final mode `run_analysis` evaluates
`k["word"] in ans` on the entry, which raises (modelled: `none`), so the
claim's "completes without raising" holds only for partial mode. -/
theorem C9_nonstr_entries (l1 l2 : List Ans) (i : Nat) (s : Scores) :
    partialStep i Ans.nonstr s = s
  ∧ (calculate_partial_mbti (l1 ++ Ans.nonstr :: l2)).2
      = partialLoop (l1.length + 1) l2 (partialLoop 0 l1 Scores.zero)
  ∧ (calculate_partial_mbti (l1 ++ Ans.nonstr :: l2)).1
      = partialLabel (l1.length + 1 + l2.length)
          ((calculate_partial_mbti (l1 ++ Ans.nonstr :: l2)).2)
  ∧ run_analysis (l1 ++ Ans.nonstr :: l2) = none := by
  refine ⟨partialStep_nonstr i s, ?_, ?_, ?_⟩
  · rw [cpm_scores, partialLoop_append]
    show partialLoop (0 + l1.length + 1) l2
        (partialStep (0 + l1.length) Ans.nonstr (partialLoop 0 l1 Scores.zero)) = _
    rw [partialStep_nonstr]
    have he : 0 + l1.length + 1 = l1.length + 1 := by omega
    rw [he]
  · have hn : (l1 ++ Ans.nonstr :: l2).length = l1.length + 1 + l2.length := by
      simp [List.length_append]
      omega
    rw [cpm_label, hn]
  · unfold run_analysis
    rw [runLoop_nonstr]

/-- C9 (counterexample): the claim says the call completes without
raising in final mode too; but `run_analysis` on a batch holding one
non-text entry raises (`none`), while partial mode handles it. -/
theorem C9_counterexample :
    run_analysis [Ans.nonstr] = none ∧
    calculate_partial_mbti [Ans.nonstr] = ("XXXX", Scores.zero) :=
  ⟨rfl, by decide⟩

/-! Field projections of `Scores.add` at literal keys (whnf through the
nested record updates is expensive; these let simp do it in one step). -/

theorem addE_E (s : Scores) (w : Nat) : (s.add "E" w).E = s.E + w := by
  unfold Scores.add
  simp

theorem addE_I (s : Scores) (w : Nat) : (s.add "E" w).I = s.I := by
  unfold Scores.add
  simp

theorem addI_I (s : Scores) (w : Nat) : (s.add "I" w).I = s.I + w := by
  unfold Scores.add
  simp

theorem addI_E (s : Scores) (w : Nat) : (s.add "I" w).E = s.E := by
  unfold Scores.add
  simp

theorem addS_S (s : Scores) (w : Nat) : (s.add "S" w).S = s.S + w := by
  unfold Scores.add
  simp

theorem addS_N (s : Scores) (w : Nat) : (s.add "S" w).N = s.N := by
  unfold Scores.add
  simp

theorem addN_N (s : Scores) (w : Nat) : (s.add "N" w).N = s.N + w := by
  unfold Scores.add
  simp

theorem addN_S (s : Scores) (w : Nat) : (s.add "N" w).S = s.S := by
  unfold Scores.add
  simp

theorem addT_T (s : Scores) (w : Nat) : (s.add "T" w).T = s.T + w := by
  unfold Scores.add
  simp

theorem addT_F (s : Scores) (w : Nat) : (s.add "T" w).F = s.F := by
  unfold Scores.add
  simp

theorem addF_F (s : Scores) (w : Nat) : (s.add "F" w).F = s.F + w := by
  unfold Scores.add
  simp

theorem addF_T (s : Scores) (w : Nat) : (s.add "F" w).T = s.T := by
  unfold Scores.add
  simp

theorem addJ_J (s : Scores) (w : Nat) : (s.add "J" w).J = s.J + w := by
  unfold Scores.add
  simp

theorem addJ_P (s : Scores) (w : Nat) : (s.add "J" w).P = s.P := by
  unfold Scores.add
  simp

theorem addP_P (s : Scores) (w : Nat) : (s.add "P" w).P = s.P + w := by
  unfold Scores.add
  simp

theorem addP_J (s : Scores) (w : Nat) : (s.add "P" w).J = s.J := by
  unfold Scores.add
  simp

/-! ### C8: monotonicity under appending a keyword. -/

theorem ite_bonus_mono (b b' : Bool) (v : Nat) (h : b = true → b' = true) :
    (if b then v else 0) ≤ (if b' then v else 0) := by
  cases b
  · simp
  · have hb' := h rfl
    simp [hb']

theorem wmin_EI_E : ∀ p ∈ dictEI_E, 1 ≤ p.2 := by decide

theorem wmin_EI_I : ∀ p ∈ dictEI_I, 1 ≤ p.2 := by decide

theorem wmin_SN_S : ∀ p ∈ dictSN_S, 1 ≤ p.2 := by decide

theorem wmin_SN_N : ∀ p ∈ dictSN_N, 1 ≤ p.2 := by decide

theorem wmin_TF_T : ∀ p ∈ dictTF_T, 1 ≤ p.2 := by decide

theorem wmin_TF_F : ∀ p ∈ dictTF_F, 2 ≤ p.2 := by decide

theorem wmin_JP_J : ∀ p ∈ dictJP_J, 1 ≤ p.2 := by decide

theorem wmin_JP_P : ∀ p ∈ dictJP_P, 1 ≤ p.2 := by decide

theorem mono_EI_E (ans k : String) (w : Nat) (prev : Scores)
    (hmem : (k, w) ∈ dictEI_E) :
    (scoreStr ans "EI" prev).E ≤ (scoreStr (ans ++ k) "EI" prev).E := by
  have hsub : substrIn k (ans ++ k) = true := substr_suffix ans k
  have hflag2 : (lexHeur (ans ++ k) "EI" prev).2 = true := by
    rw [lexHeur_EI]
    rw [anyKw_of_mem (ans ++ k) k w dictEI_E hmem hsub]
    simp
  have hXext : (scoreStr (ans ++ k) "EI" prev).E
      = prev.E + kwSum (ans ++ k) dictEI_E := by
    rw [scoreStr_eq, if_pos hflag2, lexHeur_EI]
    simp only [addE_E, addE_I, addI_E, addI_I]
  have hwle : w ≤ kwSum (ans ++ k) dictEI_E :=
    le_kwSum_of_mem (ans ++ k) k w dictEI_E hmem hsub
  have hwmin : 1 ≤ w := wmin_EI_E (k, w) hmem
  cases hb : (lexHeur ans "EI" prev).2 with
  | true =>
    have hXorig : (scoreStr ans "EI" prev).E
        = prev.E + kwSum ans dictEI_E := by
      rw [scoreStr_eq, if_pos hb, lexHeur_EI]
      simp only [addE_E, addE_I, addI_E, addI_I]
    have hks := kwSum_le_append ans k dictEI_E
    rw [hXext, hXorig]
    omega
  | false =>
    have h1 : (lexHeur ans "EI" prev).1 = prev := lexHeur_false ans "EI" prev hb
    have hss : scoreStr ans "EI" prev = apply_style_correction ans "EI" prev := by
      rw [scoreStr_eq, hb, h1]
      simp
    have hc := style_cap_E ans prev
    rw [hXext, hss]
    omega

theorem mono_EI_I (ans k : String) (w : Nat) (prev : Scores)
    (hmem : (k, w) ∈ dictEI_I) :
    (scoreStr ans "EI" prev).I ≤ (scoreStr (ans ++ k) "EI" prev).I := by
  have hsub : substrIn k (ans ++ k) = true := substr_suffix ans k
  have hflag2 : (lexHeur (ans ++ k) "EI" prev).2 = true := by
    rw [lexHeur_EI]
    rw [anyKw_of_mem (ans ++ k) k w dictEI_I hmem hsub]
    simp
  have hXext : (scoreStr (ans ++ k) "EI" prev).I
      = prev.I + kwSum (ans ++ k) dictEI_I := by
    rw [scoreStr_eq, if_pos hflag2, lexHeur_EI]
    simp only [addE_E, addE_I, addI_E, addI_I]
  have hwle : w ≤ kwSum (ans ++ k) dictEI_I :=
    le_kwSum_of_mem (ans ++ k) k w dictEI_I hmem hsub
  have hwmin : 1 ≤ w := wmin_EI_I (k, w) hmem
  cases hb : (lexHeur ans "EI" prev).2 with
  | true =>
    have hXorig : (scoreStr ans "EI" prev).I
        = prev.I + kwSum ans dictEI_I := by
      rw [scoreStr_eq, if_pos hb, lexHeur_EI]
      simp only [addE_E, addE_I, addI_E, addI_I]
    have hks := kwSum_le_append ans k dictEI_I
    rw [hXext, hXorig]
    omega
  | false =>
    have h1 : (lexHeur ans "EI" prev).1 = prev := lexHeur_false ans "EI" prev hb
    have hss : scoreStr ans "EI" prev = apply_style_correction ans "EI" prev := by
      rw [scoreStr_eq, hb, h1]
      simp
    have hc := style_cap_I ans prev
    rw [hXext, hss]
    omega

theorem mono_SN_S (ans k : String) (w : Nat) (prev : Scores)
    (hmem : (k, w) ∈ dictSN_S) :
    (scoreStr ans "SN" prev).S ≤ (scoreStr (ans ++ k) "SN" prev).S := by
  have hsub : substrIn k (ans ++ k) = true := substr_suffix ans k
  have hflag2 : (lexHeur (ans ++ k) "SN" prev).2 = true := by
    rw [lexHeur_SN]
    rw [anyKw_of_mem (ans ++ k) k w dictSN_S hmem hsub]
    simp
  have hXext : (scoreStr (ans ++ k) "SN" prev).S
      = prev.S + kwSum (ans ++ k) dictSN_S + (if reSearch sPat (ans ++ k) then 3 else 0) := by
    rw [scoreStr_eq, if_pos hflag2, lexHeur_SN]
    simp only [addS_S, addS_N, addN_S, addN_N]
  have hwle : w ≤ kwSum (ans ++ k) dictSN_S :=
    le_kwSum_of_mem (ans ++ k) k w dictSN_S hmem hsub
  have hwmin : 1 ≤ w := wmin_SN_S (k, w) hmem
  cases hb : (lexHeur ans "SN" prev).2 with
  | true =>
    have hXorig : (scoreStr ans "SN" prev).S
        = prev.S + kwSum ans dictSN_S + (if reSearch sPat ans then 3 else 0) := by
      rw [scoreStr_eq, if_pos hb, lexHeur_SN]
      simp only [addS_S, addS_N, addN_S, addN_N]
    have hks := kwSum_le_append ans k dictSN_S
    have hbm := ite_bonus_mono (reSearch sPat ans) (reSearch sPat (ans ++ k)) 3
      (reSearch_append sPat ans k)
    rw [hXext, hXorig]
    omega
  | false =>
    have h1 : (lexHeur ans "SN" prev).1 = prev := lexHeur_false ans "SN" prev hb
    have hss : scoreStr ans "SN" prev = apply_style_correction ans "SN" prev := by
      rw [scoreStr_eq, hb, h1]
      simp
    have hc := style_cap_S ans prev
    rw [hXext, hss]
    omega

theorem mono_SN_N (ans k : String) (w : Nat) (prev : Scores)
    (hmem : (k, w) ∈ dictSN_N) :
    (scoreStr ans "SN" prev).N ≤ (scoreStr (ans ++ k) "SN" prev).N := by
  have hsub : substrIn k (ans ++ k) = true := substr_suffix ans k
  have hflag2 : (lexHeur (ans ++ k) "SN" prev).2 = true := by
    rw [lexHeur_SN]
    rw [anyKw_of_mem (ans ++ k) k w dictSN_N hmem hsub]
    simp
  have hXext : (scoreStr (ans ++ k) "SN" prev).N
      = prev.N + kwSum (ans ++ k) dictSN_N + (if reSearch nPat (ans ++ k) then 3 else 0) := by
    rw [scoreStr_eq, if_pos hflag2, lexHeur_SN]
    simp only [addS_S, addS_N, addN_S, addN_N]
  have hwle : w ≤ kwSum (ans ++ k) dictSN_N :=
    le_kwSum_of_mem (ans ++ k) k w dictSN_N hmem hsub
  have hwmin : 1 ≤ w := wmin_SN_N (k, w) hmem
  cases hb : (lexHeur ans "SN" prev).2 with
  | true =>
    have hXorig : (scoreStr ans "SN" prev).N
        = prev.N + kwSum ans dictSN_N + (if reSearch nPat ans then 3 else 0) := by
      rw [scoreStr_eq, if_pos hb, lexHeur_SN]
      simp only [addS_S, addS_N, addN_S, addN_N]
    have hks := kwSum_le_append ans k dictSN_N
    have hbm := ite_bonus_mono (reSearch nPat ans) (reSearch nPat (ans ++ k)) 3
      (reSearch_append nPat ans k)
    rw [hXext, hXorig]
    omega
  | false =>
    have h1 : (lexHeur ans "SN" prev).1 = prev := lexHeur_false ans "SN" prev hb
    have hss : scoreStr ans "SN" prev = apply_style_correction ans "SN" prev := by
      rw [scoreStr_eq, hb, h1]
      simp
    have hc := style_cap_N ans prev
    rw [hXext, hss]
    omega

theorem mono_TF_T (ans k : String) (w : Nat) (prev : Scores)
    (hmem : (k, w) ∈ dictTF_T) :
    (scoreStr ans "TF" prev).T ≤ (scoreStr (ans ++ k) "TF" prev).T := by
  have hsub : substrIn k (ans ++ k) = true := substr_suffix ans k
  have hflag2 : (lexHeur (ans ++ k) "TF" prev).2 = true := by
    rw [lexHeur_TF]
    rw [anyKw_of_mem (ans ++ k) k w dictTF_T hmem hsub]
    simp
  have hXext : (scoreStr (ans ++ k) "TF" prev).T
      = prev.T + kwSum (ans ++ k) dictTF_T + (if reSearch tPat (ans ++ k) then 4 else 0) := by
    rw [scoreStr_eq, if_pos hflag2, lexHeur_TF]
    simp only [addT_T, addT_F, addF_T, addF_F]
  have hwle : w ≤ kwSum (ans ++ k) dictTF_T :=
    le_kwSum_of_mem (ans ++ k) k w dictTF_T hmem hsub
  have hwmin : 1 ≤ w := wmin_TF_T (k, w) hmem
  cases hb : (lexHeur ans "TF" prev).2 with
  | true =>
    have hXorig : (scoreStr ans "TF" prev).T
        = prev.T + kwSum ans dictTF_T + (if reSearch tPat ans then 4 else 0) := by
      rw [scoreStr_eq, if_pos hb, lexHeur_TF]
      simp only [addT_T, addT_F, addF_T, addF_F]
    have hks := kwSum_le_append ans k dictTF_T
    have hbm := ite_bonus_mono (reSearch tPat ans) (reSearch tPat (ans ++ k)) 4
      (reSearch_append tPat ans k)
    rw [hXext, hXorig]
    omega
  | false =>
    have h1 : (lexHeur ans "TF" prev).1 = prev := lexHeur_false ans "TF" prev hb
    have hss : scoreStr ans "TF" prev = apply_style_correction ans "TF" prev := by
      rw [scoreStr_eq, hb, h1]
      simp
    have hc := style_cap_T ans prev
    rw [hXext, hss]
    omega

theorem mono_TF_F (ans k : String) (w : Nat) (prev : Scores)
    (hmem : (k, w) ∈ dictTF_F) :
    (scoreStr ans "TF" prev).F ≤ (scoreStr (ans ++ k) "TF" prev).F := by
  have hsub : substrIn k (ans ++ k) = true := substr_suffix ans k
  have hflag2 : (lexHeur (ans ++ k) "TF" prev).2 = true := by
    rw [lexHeur_TF]
    rw [anyKw_of_mem (ans ++ k) k w dictTF_F hmem hsub]
    simp
  have hXext : (scoreStr (ans ++ k) "TF" prev).F
      = prev.F + kwSum (ans ++ k) dictTF_F + (if reSearch fPat (ans ++ k) then 4 else 0) := by
    rw [scoreStr_eq, if_pos hflag2, lexHeur_TF]
    simp only [addT_T, addT_F, addF_T, addF_F]
  have hwle : w ≤ kwSum (ans ++ k) dictTF_F :=
    le_kwSum_of_mem (ans ++ k) k w dictTF_F hmem hsub
  have hwmin : 2 ≤ w := wmin_TF_F (k, w) hmem
  cases hb : (lexHeur ans "TF" prev).2 with
  | true =>
    have hXorig : (scoreStr ans "TF" prev).F
        = prev.F + kwSum ans dictTF_F + (if reSearch fPat ans then 4 else 0) := by
      rw [scoreStr_eq, if_pos hb, lexHeur_TF]
      simp only [addT_T, addT_F, addF_T, addF_F]
    have hks := kwSum_le_append ans k dictTF_F
    have hbm := ite_bonus_mono (reSearch fPat ans) (reSearch fPat (ans ++ k)) 4
      (reSearch_append fPat ans k)
    rw [hXext, hXorig]
    omega
  | false =>
    have h1 : (lexHeur ans "TF" prev).1 = prev := lexHeur_false ans "TF" prev hb
    have hss : scoreStr ans "TF" prev = apply_style_correction ans "TF" prev := by
      rw [scoreStr_eq, hb, h1]
      simp
    have hc := style_cap_F ans prev
    rw [hXext, hss]
    omega

theorem mono_JP_J (ans k : String) (w : Nat) (prev : Scores)
    (hmem : (k, w) ∈ dictJP_J) :
    (scoreStr ans "JP" prev).J ≤ (scoreStr (ans ++ k) "JP" prev).J := by
  have hsub : substrIn k (ans ++ k) = true := substr_suffix ans k
  have hflag2 : (lexHeur (ans ++ k) "JP" prev).2 = true := by
    rw [lexHeur_JP]
    rw [anyKw_of_mem (ans ++ k) k w dictJP_J hmem hsub]
    simp
  have hXext : (scoreStr (ans ++ k) "JP" prev).J
      = prev.J + kwSum (ans ++ k) dictJP_J + (if reSearch jPat (ans ++ k) then 3 else 0) := by
    rw [scoreStr_eq, if_pos hflag2, lexHeur_JP]
    simp only [addJ_J, addJ_P, addP_J, addP_P]
  have hwle : w ≤ kwSum (ans ++ k) dictJP_J :=
    le_kwSum_of_mem (ans ++ k) k w dictJP_J hmem hsub
  have hwmin : 1 ≤ w := wmin_JP_J (k, w) hmem
  cases hb : (lexHeur ans "JP" prev).2 with
  | true =>
    have hXorig : (scoreStr ans "JP" prev).J
        = prev.J + kwSum ans dictJP_J + (if reSearch jPat ans then 3 else 0) := by
      rw [scoreStr_eq, if_pos hb, lexHeur_JP]
      simp only [addJ_J, addJ_P, addP_J, addP_P]
    have hks := kwSum_le_append ans k dictJP_J
    have hbm := ite_bonus_mono (reSearch jPat ans) (reSearch jPat (ans ++ k)) 3
      (reSearch_append jPat ans k)
    rw [hXext, hXorig]
    omega
  | false =>
    have h1 : (lexHeur ans "JP" prev).1 = prev := lexHeur_false ans "JP" prev hb
    have hss : scoreStr ans "JP" prev = apply_style_correction ans "JP" prev := by
      rw [scoreStr_eq, hb, h1]
      simp
    have hc := style_cap_J ans prev
    rw [hXext, hss]
    omega

theorem mono_JP_P (ans k : String) (w : Nat) (prev : Scores)
    (hmem : (k, w) ∈ dictJP_P) :
    (scoreStr ans "JP" prev).P ≤ (scoreStr (ans ++ k) "JP" prev).P := by
  have hsub : substrIn k (ans ++ k) = true := substr_suffix ans k
  have hflag2 : (lexHeur (ans ++ k) "JP" prev).2 = true := by
    rw [lexHeur_JP]
    rw [anyKw_of_mem (ans ++ k) k w dictJP_P hmem hsub]
    simp
  have hXext : (scoreStr (ans ++ k) "JP" prev).P
      = prev.P + kwSum (ans ++ k) dictJP_P + (if reSearch pPat (ans ++ k) then 3 else 0) := by
    rw [scoreStr_eq, if_pos hflag2, lexHeur_JP]
    simp only [addJ_J, addJ_P, addP_J, addP_P]
  have hwle : w ≤ kwSum (ans ++ k) dictJP_P :=
    le_kwSum_of_mem (ans ++ k) k w dictJP_P hmem hsub
  have hwmin : 1 ≤ w := wmin_JP_P (k, w) hmem
  cases hb : (lexHeur ans "JP" prev).2 with
  | true =>
    have hXorig : (scoreStr ans "JP" prev).P
        = prev.P + kwSum ans dictJP_P + (if reSearch pPat ans then 3 else 0) := by
      rw [scoreStr_eq, if_pos hb, lexHeur_JP]
      simp only [addJ_J, addJ_P, addP_J, addP_P]
    have hks := kwSum_le_append ans k dictJP_P
    have hbm := ite_bonus_mono (reSearch pPat ans) (reSearch pPat (ans ++ k)) 3
      (reSearch_append pPat ans k)
    rw [hXext, hXorig]
    omega
  | false =>
    have h1 : (lexHeur ans "JP" prev).1 = prev := lexHeur_false ans "JP" prev hb
    have hss : scoreStr ans "JP" prev = apply_style_correction ans "JP" prev := by
      rw [scoreStr_eq, hb, h1]
      simp
    have hc := style_cap_P ans prev
    rw [hXext, hss]
    omega

/-- C8 (amended): in the keyword-gated scorer (the second
`analyze_single_answer`, `run_analysis` and `calculate_partial_mbti` all
score a text answer through `scoreStr`), appending an occurrence of a
lexicon keyword belonging to trait X never decreases trait X's
accumulated score.  (The opposing trait's score CAN increase when the
junction creates a new opposing-trait match, and under the first,
style-ungated `analyze_single_answer` even trait X's own score can
decrease — see the counterexample.) -/
theorem C8_append_keyword_monotone (ans k : String) (w : Nat) (prev : Scores) :
    ((k, w) ∈ dictEI_E →
      (scoreStr ans "EI" prev).E ≤ (scoreStr (ans ++ k) "EI" prev).E)
  ∧ ((k, w) ∈ dictEI_I →
      (scoreStr ans "EI" prev).I ≤ (scoreStr (ans ++ k) "EI" prev).I)
  ∧ ((k, w) ∈ dictSN_S →
      (scoreStr ans "SN" prev).S ≤ (scoreStr (ans ++ k) "SN" prev).S)
  ∧ ((k, w) ∈ dictSN_N →
      (scoreStr ans "SN" prev).N ≤ (scoreStr (ans ++ k) "SN" prev).N)
  ∧ ((k, w) ∈ dictTF_T →
      (scoreStr ans "TF" prev).T ≤ (scoreStr (ans ++ k) "TF" prev).T)
  ∧ ((k, w) ∈ dictTF_F →
      (scoreStr ans "TF" prev).F ≤ (scoreStr (ans ++ k) "TF" prev).F)
  ∧ ((k, w) ∈ dictJP_J →
      (scoreStr ans "JP" prev).J ≤ (scoreStr (ans ++ k) "JP" prev).J)
  ∧ ((k, w) ∈ dictJP_P →
      (scoreStr ans "JP" prev).P ≤ (scoreStr (ans ++ k) "JP" prev).P) :=
  ⟨fun hm => mono_EI_E ans k w prev hm,
   fun hm => mono_EI_I ans k w prev hm,
   fun hm => mono_SN_S ans k w prev hm,
   fun hm => mono_SN_N ans k w prev hm,
   fun hm => mono_TF_T ans k w prev hm,
   fun hm => mono_TF_F ans k w prev hm,
   fun hm => mono_JP_J ans k w prev hm,
   fun hm => mono_JP_P ans k w prev hm⟩

/-- C8 (counterexample): appending the E-keyword "ë§Œë‚˜" (만나) to the
answer "ë‚˜" (나) creates the I-keyword "ë‚˜ë§Œ" (나만) across the
junction, raising the opposing trait I from 1 (style fallback) to 4; and
under the first `analyze_single_answer` (unconditional style
correction), appending the I-keyword "í˜¼ì" (혼자) to a short answer
that already contains it pushes the length past 20 and DECREASES I from
6 to 5. -/
theorem C8_counterexample :
    ("ë§Œë‚˜", 4) ∈ dictEI_E
  ∧ (scoreStr "ë‚˜" "EI" Scores.zero).I = 1
  ∧ (scoreStr ("ë‚˜" ++ "ë§Œë‚˜") "EI" Scores.zero).I = 4
  ∧ ("í˜¼ì", 5) ∈ dictEI_I
  ∧ (analyze_single_answer_v1 "í˜¼ìaaaaaaaaaaaa" "EI").1.I = 6
  ∧ (analyze_single_answer_v1 ("í˜¼ìaaaaaaaaaaaa" ++ "í˜¼ì") "EI").1.I = 5 := by
  refine ⟨by decide, by decide, by decide, by decide, by decide, by decide⟩

/-- C8 (witness): appending the E-keyword to a short answer does not
decrease E. -/
theorem C8_witness :
    (scoreStr "ë‚˜" "EI" Scores.zero).E
      ≤ (scoreStr ("ë‚˜" ++ "ë§Œë‚˜") "EI" Scores.zero).E :=
  (C8_append_keyword_monotone "ë‚˜" "ë§Œë‚˜" 4 Scores.zero).1 (by decide)
